import Mathlib

/-!
Verification development for `eval.c` (a fault-injection and
behavior-verification harness for student code).  The definitions below are a
shallow embedding of the C source in `src/eval.c`: every intercepted operation
is translated to a pure state-transition function over an explicit harness
state, C `printf`-style formatting is modelled by string concatenation, and
nonlocal escapes (`siglongjmp`) and `exit` are modelled as explicit result
constructors.  Real OS calls performed under the DEFAULT action are modelled
by an oracle argument `realRet` giving the value the real call would return,
plus a trace field recording that the real call happened.
-/

namespace EvalC

/-- The configured action for one intercept (the `ACTION_*` constants from
`eval.h`, which is not part of `src/`; the constant set is taken from the
`switch` statements in `eval.c` and the spec).  `DEFAULT` stands for the value
handled by the `default:` branch of each dispatch `switch`. -/
inductive Action where
  | DEFAULT
  | ERROR
  | SUCCESS
  | LOG
  | BLOCK
  | RETRY
  | CREATE
  | INJECT
  | PROTECT
  | WARN
deriving DecidableEq

/-- Classification of a C pointer value as the pointer-validity probe sees it:
`null` is `NULL`, `neg1` is the sentinel `(void *) -1`, `valid a` is a mapped
address, `segv a` is an address whose access raises SIGSEGV, `buserr a` one
whose access raises SIGBUS. -/
inductive Ptr where
  | null
  | neg1
  | valid (a : Nat)
  | segv (a : Nat)
  | buserr (a : Nat)
deriving DecidableEq

/-- Rendering of a pointer argument in a log line (the `%p` conversions in
`eval.c`; the exact address syntax is immaterial to every claim). -/
def ptrStr : Ptr → String
  | .null => "0x0"
  | .neg1 => "0xffffffffffffffff"
  | .valid a => "0x" ++ toString a
  | .segv a => "0x" ++ toString a
  | .buserr a => "0x" ++ toString a

/-- The `EVAL_CATCH_*` outcome classification codes used with `siglongjmp`
(`EVAL_CATCH_EXIT`, `EVAL_CATCH_ABORT`, `EVAL_CATCH_BLOCKED`,
`EVAL_CATCH_SIGNAL`, `EVAL_CATCH_LOG_OVERFLOW`; numeric values live in the
missing `eval.h`, only their identity matters). -/
inductive CatchCode where
  | exit
  | abort
  | blocked
  | signal
  | log_overflow
deriving DecidableEq

/-- errno values used by `eval.c` (numeric values are the usual Linux ones;
only their distinctness matters to the claims). -/
def ENOENT : Int := 2

/-- errno value for an invalid argument. -/
def EINVAL : Int := 22

/-- The `_eval_stats` counters of `eval.c` together with the list of messages
printed through `eval_error` (each `eval_error` call prints exactly one
formatted message and increments `error` by one; `eval.c` lines 431-456). -/
structure EvalStats where
  error : Nat
  info : Nat
  errorMsgs : List String
deriving DecidableEq

/-- `eval_error` (eval.c lines 431-456): formats the message, prints it, and
increments the error counter, returning the new counter.  Here the printed
message is recorded in `errorMsgs`. -/
def eval_error (msg : String) (st : EvalStats) : EvalStats :=
  { st with error := st.error + 1, errorMsgs := st.errorMsgs ++ [msg] }

/-- `eval_info` (eval.c lines 465-490): prints an info message and increments
the info counter. -/
def eval_info (st : EvalStats) : EvalStats :=
  { st with info := st.info + 1 }

/-!  ## Verification log (`log_t`, eval.c lines 147-256) -/

/-- A `log_t` variable: `start` is the head index (−1 when no line was ever
appended), `stop` models the C field `end` (the next write slot), and
`buffer` models the fixed `char buffer[LOGSIZE][LOGLINE]` array as a total
map from slot index to line contents (slots never written hold arbitrary
garbage, exactly as the uninitialised C array does). -/
structure Log where
  start : Int
  stop : Nat
  buffer : Nat → String

/-- `initlog` (eval.c lines 157-160). -/
def initlog : Log :=
  { start := -1, stop := 0, buffer := fun _ => "" }

/-- The result of `newline` (eval.c lines 167-185): either a fresh slot is
handed out, or the log is full and control escapes with
`EVAL_CATCH_LOG_OVERFLOW` (when `_eval_env.catch` is set) or the process
exits with code 1. -/
inductive NewlineOut where
  | written (pos : Nat) (log : Log)
  | escape (c : CatchCode)
  | exited (code : Int)

/-- `newline` (eval.c lines 167-185).  `cap` is the compile-time constant
`LOGSIZE` from the missing `eval.h`, passed explicitly.  On success it
returns the slot index `log.stop` (the C function returns the pointer
`log->buffer[log->end]`) and the updated log; on overflow it reports two
errors and escapes or exits depending on the catch flag. -/
def newline (cap : Nat) (catchFlag : Bool) (log : Log) (st : EvalStats) :
    NewlineOut × EvalStats :=
  if log.stop < cap then
    (.written log.stop
      { log with start := if log.start < 0 then 0 else log.start,
                 stop := log.stop + 1 }, st)
  else
    let st := eval_error "No more space in logbuffer, aborting" st
    let st := eval_error ("Last message was: " ++ log.buffer (cap - 1)) st
    if catchFlag then (.escape .log_overflow, st) else (.exited 1, st)

/-- Writing the formatted line into the slot returned by `newline` (this is
the `vsnprintf(newline(log), LOGLINE, ...)` step of `eval_log`/`datalog`). -/
def logWrite (log : Log) (pos : Nat) (line : String) : Log :=
  { log with buffer := fun i => if i = pos then line else log.buffer i }

/-- C `strstr(hay, needle) != NULL`: `needle` occurs as a contiguous
substring of `hay` (the empty needle always matches). -/
def strstr (hay needle : List Char) : Bool :=
  match hay with
  | [] => needle.isEmpty
  | c :: t => needle.isPrefixOf (c :: t) || strstr t needle

/-- `strstr` on Lean strings. -/
def strstrS (hay needle : String) : Bool :=
  strstr hay.data needle.data

/-- `rmheadmsg` (eval.c lines 235-244): if the log is empty (`start < 0`)
returns −1 unchanged; otherwise, if the supplied message occurs inside the
head line (C `strstr`), the head index advances and 0 is returned; otherwise
−1 and no change. -/
def rmheadmsg (log : Log) (msg : String) : Int × Log :=
  if log.start < 0 then (-1, log)
  else if strstrS (log.buffer log.start.toNat) msg then
    (0, { log with start := log.start + 1 })
  else (-1, log)

/-- `loghead` (eval.c lines 252-256). -/
def loghead (log : Log) : String :=
  if log.start < 0 then "<empty>" else log.buffer log.start.toNat

/-!  ## Pointer validity probe: signal-disposition bookkeeping (C1)

`eval_checkptr` (eval.c lines 745-812) and `eval_checkconstptr` (lines
824-890) install a dedicated handler for SIGSEGV and SIGBUS, saving the prior
dispositions into `tmp[0]` and `tmp[1]`, and afterwards restore the handlers.
The model below tracks only the two dispositions; a disposition is an
abstract handler value (`Nat`).  -/

/-- The process signal dispositions for SIGSEGV and SIGBUS. -/
structure SigDisp where
  segv : Nat
  bus : Nat
deriving DecidableEq

/-- The effect of `eval_checkptr` (eval.c lines 745-812) on the SIGSEGV and
SIGBUS dispositions.  For `NULL` and `(void *) -1` the function returns before
touching the handlers.  Otherwise it performs, in order, the source's
`sigaction` calls:
line 764 `sigaction(SIGSEGV, &act, &tmp[0])`,
line 769 `sigaction(SIGBUS,  &act, &tmp[1])`,
line 787 `sigaction(SIGSEGV, &tmp[0], NULL)`,
line 792 `sigaction(SIGBUS,  &tmp[0], NULL)` — note the source passes
`tmp[0]`, the saved SIGSEGV disposition, when restoring SIGBUS. -/
def eval_checkptr_sig (handler : Nat) (p : Ptr) (s : SigDisp) : SigDisp :=
  match p with
  | .null => s
  | .neg1 => s
  | _ =>
    let tmp0 := s.segv
    let s := { s with segv := handler }
    let _tmp1 := s.bus
    let s := { s with bus := handler }
    let s := { s with segv := tmp0 }
    let s := { s with bus := tmp0 }
    s

/-- The effect of `eval_checkconstptr` (eval.c lines 824-890) on the SIGSEGV
and SIGBUS dispositions; the `sigaction` sequence (lines 843, 848, 865, 870)
is identical to `eval_checkptr`, including passing `tmp[0]` when restoring
SIGBUS at line 870. -/
def eval_checkconstptr_sig (handler : Nat) (p : Ptr) (s : SigDisp) : SigDisp :=
  match p with
  | .null => s
  | .neg1 => s
  | _ =>
    let tmp0 := s.segv
    let s := { s with segv := handler }
    let _tmp1 := s.bus
    let s := { s with bus := handler }
    let s := { s with segv := tmp0 }
    let s := { s with bus := tmp0 }
    s

/-!  ## Harness global state and per-operation intercept records -/

/-- Signal numbers (Linux numeric values; only their distinctness and
membership in the reserved set matter). -/
def SIGILL : Int := 4

/-- SIGBUS signal number. -/
def SIGBUS : Int := 7

/-- SIGFPE signal number. -/
def SIGFPE : Int := 8

/-- SIGSEGV signal number. -/
def SIGSEGV : Int := 11

/-- SIGPROF signal number. -/
def SIGPROF : Int := 27

/-- `SIG_ERR`, the error return of `signal` (the value `(sighandler_t) -1`). -/
def SIG_ERR : Int := -1

/-- `SIG_DFL`, the default-handler constant (the value 0). -/
def SIG_DFL : Int := 0

/-- `INT32_MIN`. -/
def INT32_MIN : Int := -2147483648

/-- `IPC_CREAT` (octal 01000). -/
def IPC_CREAT : Nat := 512

/-- Test of `flg & IPC_CREAT` for a (non-negative) C flag argument. -/
def hasIpcCreat (flg : Int) : Bool :=
  flg.toNat.land IPC_CREAT ≠ 0

/-- Modelled from the spec: `LOGSIZE` is the fixed log capacity defined in
`eval.h`, which is not under `src/` ("bounded text-line buffers" of "fixed
capacity").  No claim depends on the concrete value; theorems about log
appends quantify over, or hypothesise, the fill level. -/
def LOGSIZE : Nat := 256

/-- `_eval_sleep_data` (the EVAL_VAR record for `sleep`). -/
structure SleepData where
  status : Nat
  action : Action
  seconds : Int
  ret : Int
deriving DecidableEq

/-- `_eval_wait_data`. -/
structure WaitData where
  status : Nat
  action : Action
  ret : Int
  stat_loc : Ptr
deriving DecidableEq

/-- `_eval_kill_data`. -/
structure KillData where
  status : Nat
  action : Action
  pid : Int
  sig : Int
  ret : Int
deriving DecidableEq

/-- `_eval_signal_data`. -/
structure SignalData where
  status : Nat
  action : Action
  signum : Int
  handler : Int
  ret : Int
deriving DecidableEq

/-- `_eval_sigaction_data` (the captured `act`/`oldact` pointers are stored;
the struct contents behind `act` are passed to the model separately). -/
structure SigactionData where
  status : Nat
  action : Action
  signum : Int
  act : Ptr
  oldact : Ptr
  ret : Int
deriving DecidableEq

/-- `_eval_msgget_data`. -/
structure MsggetData where
  status : Nat
  action : Action
  key : Int
  msgflg : Int
  msqid : Int
  ret : Int
deriving DecidableEq

/-- `_eval_semget_data`. -/
structure SemgetData where
  status : Nat
  action : Action
  key : Int
  nsems : Int
  semflg : Int
  semid : Int
  ret : Int
deriving DecidableEq

/-- `_eval_shmget_data`. -/
structure ShmgetData where
  status : Nat
  action : Action
  key : Int
  size : Nat
  shmflg : Int
  shmid : Int
  ret : Int
deriving DecidableEq

/-- `_eval_msgrcv_data`. -/
structure MsgrcvData where
  status : Nat
  action : Action
  msqid : Int
  msgp : Ptr
  msgsz : Nat
  msgtyp : Int
  msgflg : Int
  ret : Int
deriving DecidableEq

/-- `_eval_execl_data`. -/
structure ExeclData where
  status : Nat
  action : Action
  path : String
  ret : Int
deriving DecidableEq

/-- `_eval_atoi_data`. -/
structure AtoiData where
  status : Nat
  action : Action
  nptr : String
  ret : Int
deriving DecidableEq

/-- The global mutable state of the harness that the modelled operations
touch: `_eval_stats` (with the printed error messages), the C global `errno`,
the `_eval_env.catch` flag, the three logs, and one record per modelled
intercepted operation.  `writes` records every caller-supplied pointer the
harness itself copies output data into (the `*stat_loc = ...` / `memcpy`
steps), and `realCalls` records every real underlying OS call performed (the
`default:` branches). -/
structure CState where
  stats : EvalStats
  errno : Int
  catchFlag : Bool
  data_log : Log
  error_log : Log
  success_log : Log
  writes : List Ptr
  realCalls : List String
  sleep : SleepData
  wait : WaitData
  kill : KillData
  signal : SignalData
  sigact : SigactionData
  msgget : MsggetData
  semget : SemgetData
  shmget : ShmgetData
  msgrcv : MsgrcvData
  execl : ExeclData
  atoi : AtoiData

/-- Result of one intercepted call: a normal return with a value, a
`siglongjmp` escape to the EVAL_CATCH recovery point, a process exit, or
death by an uncaught signal (a hardware fault raised while the capture
handlers are not installed). -/
inductive EvalResult (α : Type) where
  | ret (v : α) (s : CState)
  | escape (c : CatchCode) (s : CState)
  | exited (code : Int) (s : CState)
  | fatal (sig : Int) (s : CState)

/-- The harness state when the call ends, whichever way it ends. -/
def finalState {α : Type} : EvalResult α → CState
  | .ret _ s => s
  | .escape _ s => s
  | .exited _ s => s
  | .fatal _ s => s

/-- The returned value, if the call returned normally. -/
def retVal {α : Type} : EvalResult α → Option α
  | .ret v _ => some v
  | .escape _ _ => none
  | .exited _ _ => none
  | .fatal _ _ => none

/-- Report an error through `eval_error` inside the harness state. -/
def addErr (msg : String) (s : CState) : CState :=
  { s with stats := eval_error msg s.stats }

/-- `eval_checkptr` (eval.c lines 745-812), at the level of its return code
and error reporting: 0 valid, 1 NULL, 2 `(void *) -1`, 3 SIGSEGV, 4 SIGBUS;
every nonzero outcome reports one error.  (Its effect on the signal
dispositions is modelled separately by `eval_checkptr_sig`.) -/
def eval_checkptr (p : Ptr) (s : CState) : Nat × CState :=
  match p with
  | .null => (1, addErr "NULL pointer" s)
  | .neg1 => (2, addErr ("Invalid pointer " ++ ptrStr p) s)
  | .valid _ => (0, s)
  | .segv _ =>
    (3, addErr ("(checkptr) Accessing " ++ ptrStr p ++ " caused Segmentation Fault") s)
  | .buserr _ =>
    (4, addErr ("(checkptr) Accessing " ++ ptrStr p ++ " caused Bus Error") s)

/-- `eval_checkconstptr` (eval.c lines 824-890): same return codes and error
reporting as `eval_checkptr` (the difference — no write-back of the probed
byte — is invisible at this level). -/
def eval_checkconstptr (p : Ptr) (s : CState) : Nat × CState :=
  match p with
  | .null => (1, addErr "NULL pointer" s)
  | .neg1 => (2, addErr ("Invalid pointer " ++ ptrStr p) s)
  | .valid _ => (0, s)
  | .segv _ =>
    (3, addErr ("(checkptr) Accessing " ++ ptrStr p ++ " caused Segmentation Fault") s)
  | .buserr _ =>
    (4, addErr ("(checkptr) Accessing " ++ ptrStr p ++ " caused Bus Error") s)

/-- The fault signal a memory access through a given pointer raises:
SIGBUS for a bus-error address, SIGSEGV for NULL, the `(void *) -1`
sentinel, or an unmapped address. -/
def faultSig : Ptr → Int
  | .buserr _ => SIGBUS
  | _ => SIGSEGV

/-- The message `_eval_sighandler` (eval.c lines 1046-1077) reports for a
caught signal (the spelling follows the source, typos included). -/
def sighandlerMsg (sig : Int) : String :=
  if sig = SIGSEGV then "Segmentation fault (SIGSEGV)"
  else if sig = SIGBUS then "Bus error (SIGBUS)"
  else if sig = SIGFPE then "Floating point exception / division by 0 (SIGFPE)"
  else if sig = SIGILL then "Illegal instruction (SIGILL)"
  else if sig = SIGPROF then "Timeout (SIGPROF)"
  else "Unexepected signal caught!"

/-- Delivery of a hardware-fault signal raised inside an intercept.  During a
capture cycle (`_eval_env.catch` set, the fault handlers installed by
`_eval_arm_signals`), `_eval_sighandler` (eval.c lines 1046-1077) reports the
signal through `eval_error` and escapes with `EVAL_CATCH_SIGNAL`; outside a
capture cycle the default disposition kills the process. -/
def deliverFault {α : Type} (sig : Int) (s : CState) : EvalResult α :=
  if s.catchFlag then .escape .signal (addErr (sighandlerMsg sig) s)
  else .fatal sig s

/-- `datalog` (eval.c lines 282-288): grab a slot in `_data_log` via
`newline` (which may escalate a log overflow) and write the formatted line
into it. -/
def datalog (line : String) (s : CState) : EvalResult Unit :=
  match newline LOGSIZE s.catchFlag s.data_log s.stats with
  | (.written pos log2, st2) =>
    .ret () { s with data_log := logWrite log2 pos line, stats := st2 }
  | (.escape c, st2) => .escape c { s with stats := st2 }
  | (.exited n, st2) => .exited n { s with stats := st2 }

/-- Sequencing after a possibly-escaping step: when the step returned
normally the continuation runs on the updated state (this is the C
fall-through from the `ACTION_LOG` case into the next case); an escape or
exit propagates unchanged. -/
def andThen {α : Type} (r : EvalResult Unit) (k : CState → EvalResult α) :
    EvalResult α :=
  match r with
  | .ret _ s1 => k s1
  | .escape c s1 => .escape c s1
  | .exited n s1 => .exited n s1
  | .fatal n s1 => .fatal n s1

/-!  ## Intercepted operations (function wrappers, eval.c lines 1196-3372) -/

/-- `_eval_sleep` (eval.c lines 1273-1293).  `realRet` is the value the real
`sleep(seconds)` would return under the `default:` branch. -/
def _eval_sleep (seconds : Int) (realRet : Int) (s0 : CState) : EvalResult Int :=
  let s := { s0 with
    sleep := { s0.sleep with status := s0.sleep.status + 1, seconds := seconds } }
  match s.sleep.action with
  | .ERROR => .ret 1 { s with sleep := { s.sleep with ret := 1 } }
  | .LOG =>
    andThen (datalog ("sleep," ++ toString seconds) s) (fun s1 =>
      .ret 0 { s1 with sleep := { s1.sleep with ret := 0 } })
  | .SUCCESS => .ret 0 { s with sleep := { s.sleep with ret := 0 } }
  | .BLOCK => .escape .blocked (addErr "sleep() called, aborting" s)
  | _ => .ret realRet { s with sleep := { s.sleep with ret := realRet },
                               realCalls := s.realCalls ++ ["sleep"] }

/-- `_eval_wait` (eval.c lines 1357-1402).  The status counter is incremented
first; a non-NULL `stat_loc` is probed before the action dispatch; after the
dispatch the captured `stat_loc` is stored and `_eval_wait_data.ret` is
returned.  The dispatch reads the configured action from the original record
(the probe and its error reporting never modify any `.action` field).  Under SUCCESS (and the LOG fall-through) the harness copies an
injected status into `*stat_loc` when the pointer was valid (recorded in
`writes`). -/
def _eval_wait (stat_loc : Ptr) (realRet : Int) (s0 : CState) : EvalResult Int :=
  let sA := { s0 with wait := { s0.wait with status := s0.wait.status + 1 } }
  let ck :=
    if stat_loc ≠ Ptr.null then
      let pr := eval_checkptr stat_loc sA
      if pr.1 ≠ 0 then
        ((1 : Nat), addErr "wait() called with invalid pointer (stat_loc)" pr.2)
      else ((0 : Nat), pr.2)
    else ((0 : Nat), sA)
  let err := ck.1
  let s := ck.2
  match s0.wait.action with
  | .ERROR =>
    let s := { s with wait := { s.wait with ret := -1 }, errno := EINVAL }
    .ret (-1) { s with wait := { s.wait with stat_loc := stat_loc } }
  | .LOG =>
    andThen (datalog ("wait," ++ ptrStr stat_loc) s) (fun s1 =>
      let r := if s1.wait.ret < 0 then (0 : Int) else s1.wait.ret
      let s1 := { s1 with wait := { s1.wait with ret := r } }
      let s1 := if err = 0 ∧ stat_loc ≠ Ptr.null then
          { s1 with writes := s1.writes ++ [stat_loc] } else s1
      .ret r { s1 with wait := { s1.wait with stat_loc := stat_loc } })
  | .SUCCESS =>
    let r := if s.wait.ret < 0 then (0 : Int) else s.wait.ret
    let s := { s with wait := { s.wait with ret := r } }
    let s := if err = 0 ∧ stat_loc ≠ Ptr.null then
        { s with writes := s.writes ++ [stat_loc] } else s
    .ret r { s with wait := { s.wait with stat_loc := stat_loc } }
  | .BLOCK => .escape .blocked (addErr "wait() called, aborting" s)
  | _ =>
    if err = 0 then
      let s := { s with wait := { s.wait with ret := realRet },
                        realCalls := s.realCalls ++ ["wait"] }
      .ret realRet { s with wait := { s.wait with stat_loc := stat_loc } }
    else
      let s := { s with wait := { s.wait with ret := -1 } }
      .ret (-1) { s with wait := { s.wait with stat_loc := stat_loc } }

/-- `_eval_kill` (eval.c lines 1504-1560).  `mypid` and `ppid` are the values
`getpid()` and `getppid()` return.  Under PROTECT the four guards run in
sequence, each reporting one error; when none fires, control falls through to
the `default:` branch and the real `kill` runs. -/
def _eval_kill (mypid ppid : Int) (pid sig : Int) (realRet : Int)
    (s0 : CState) : EvalResult Int :=
  let s := { s0 with
    kill := { s0.kill with status := s0.kill.status + 1, pid := pid, sig := sig } }
  match s.kill.action with
  | .ERROR => .ret (-1) { s with kill := { s.kill with ret := -1 }, errno := EINVAL }
  | .LOG =>
    andThen (datalog ("kill," ++ toString pid ++ "," ++ toString sig) s) (fun s1 =>
      .ret 0 { s1 with kill := { s1.kill with ret := 0 } })
  | .SUCCESS => .ret 0 { s with kill := { s.kill with ret := 0 } }
  | .BLOCK => .escape .blocked (addErr "kill() called, aborting" s)
  | .PROTECT =>
    let g1 := mypid = pid
    let s := if g1 then addErr "(kill) prevented sending signal to self" s else s
    let g2 := ppid = pid
    let s := if g2 then addErr "(kill) prevented sending signal to parent" s else s
    let g3 := (0 : Int) = pid
    let s := if g3 then
        addErr "(kill) prevented sending signal to every process in the process group" s
      else s
    let g4 := (-1 : Int) = pid
    let s := if g4 then
        addErr "(kill) prevented sending signal to to every process belonging to process owner" s
      else s
    if g1 ∨ g2 ∨ g3 ∨ g4 then
      .ret 0 { s with kill := { s.kill with ret := 0 } }
    else
      .ret realRet { s with kill := { s.kill with ret := realRet },
                            realCalls := s.realCalls ++ ["kill"] }
  | _ => .ret realRet { s with kill := { s.kill with ret := realRet },
                               realCalls := s.realCalls ++ ["kill"] }

/-- `_eval_signal` (eval.c lines 1631-1683).  The reserved-signal check runs
after the parameters are captured and before the action dispatch; a reserved
signal yields `SIG_ERR` with `errno = EINVAL` for every configured action. -/
def _eval_signal (signum : Int) (handler : Int) (realRet : Int)
    (s0 : CState) : EvalResult Int :=
  let sA := { s0 with signal := { s0.signal with
    status := s0.signal.status + 1, signum := signum, handler := handler } }
  let bad := signum = SIGPROF ∨ signum = SIGSEGV ∨ signum = SIGBUS ∨
             signum = SIGFPE ∨ signum = SIGILL
  let s :=
    if signum = SIGPROF then
      addErr "(signal) Use of SIGPROF signal is reserved for eval" sA
    else if signum = SIGSEGV then
      addErr "(signal) Use of SIGSEGV signal is reserved for eval" sA
    else if signum = SIGBUS then
      addErr "(signal) Use of SIGBUS signal is reserved for eval" sA
    else if signum = SIGFPE then
      addErr "(signal) Use of SIGFPE signal is reserved for eval" sA
    else if signum = SIGILL then
      addErr "(signal) Use of SIGILL signal is reserved for eval" sA
    else sA
  if bad then
    .ret SIG_ERR { s with signal := { s.signal with ret := SIG_ERR }, errno := EINVAL }
  else
    match s0.signal.action with
    | .ERROR => .ret SIG_ERR { s with signal := { s.signal with ret := SIG_ERR } }
    | .LOG =>
      andThen (datalog ("signal," ++ toString signum ++ "," ++ toString handler) s)
        (fun s1 => .ret SIG_DFL { s1 with signal := { s1.signal with ret := SIG_DFL } })
    | .SUCCESS => .ret SIG_DFL { s with signal := { s.signal with ret := SIG_DFL } }
    | .BLOCK => .escape .blocked (addErr "signal() called, aborting" s)
    | _ => .ret realRet { s with signal := { s.signal with ret := realRet },
                                 realCalls := s.realCalls ++ ["signal"] }

/-- The two pointer probes of `_eval_sigaction` (eval.c lines 1711-1788,
probe section): the accumulated error count and the state after probing
`act` (when non-NULL, via `eval_checkconstptr`) and `oldact` (when
non-NULL, via `eval_checkptr`). -/
def sigactionChecks (act oldact : Ptr) (s0 : CState) : Nat × CState :=
  let ck1 :=
    if act ≠ Ptr.null then
      let pr := eval_checkconstptr act s0
      if pr.1 ≠ 0 then
        ((1 : Nat), addErr "sigaction() called with invalid pointer (act)" pr.2)
      else ((0 : Nat), pr.2)
    else ((0 : Nat), s0)
  if oldact ≠ Ptr.null then
    let pr := eval_checkptr oldact ck1.2
    if pr.1 ≠ 0 then
      (ck1.1 + 1, addErr "sigaction() called with invalid pointer (oldact)" pr.2)
    else (ck1.1, pr.2)
  else (ck1.1, ck1.2)

/-- The reserved-signal error-message chain of `_eval_sigaction`
(eval.c, the `eval_error` of the rejection branch). -/
def sigactionMsg (signum : Int) (sA : CState) : CState :=
  if signum = SIGPROF then
    addErr "(sigaction) Use of SIGPROF signal is reserved for eval" sA
  else if signum = SIGSEGV then
    addErr "(sigaction) Use of SIGSEGV signal is reserved for eval" sA
  else if signum = SIGBUS then
    addErr "(sigaction) Use of SIGBUS signal is reserved for eval" sA
  else if signum = SIGFPE then
    addErr "(sigaction) Use of SIGFPE signal is reserved for eval" sA
  else if signum = SIGILL then
    addErr "(sigaction) Use of SIGILL signal is reserved for eval" sA
  else sA

/-- `_eval_sigaction` (eval.c lines 1711-1788).  The two pointer parameters
are probed first (when non-NULL), then the parameters are captured and the
counter incremented, then the reserved-signal check runs, and only then the
action dispatch.  `actSiginfo`/`actHandler` model the fields read from `*act`
by the LOG branch; that branch reads `act -> sa_flags` (src line 1767)
unconditionally, so when `act` is NULL or otherwise invalid the dereference
raises a hardware fault (`deliverFault`) instead of logging and returning. -/
def _eval_sigaction (signum : Int) (act : Ptr) (actSiginfo : Bool)
    (actHandler : Int) (oldact : Ptr) (realRet : Int)
    (s0 : CState) : EvalResult Int :=
  let ck2 := sigactionChecks act oldact s0
  let err := ck2.1
  let sA := { ck2.2 with sigact := { ck2.2.sigact with
    status := ck2.2.sigact.status + 1, signum := signum, act := act, oldact := oldact } }
  let bad := signum = SIGPROF ∨ signum = SIGSEGV ∨ signum = SIGBUS ∨
             signum = SIGFPE ∨ signum = SIGILL
  let s := sigactionMsg signum sA
  if bad then
    .ret (-1) { s with sigact := { s.sigact with ret := -1 }, errno := EINVAL }
  else
    match s0.sigact.action with
    | .ERROR => .ret (-1) { s with sigact := { s.sigact with ret := -1 } }
    | .LOG =>
      match act with
      | .valid _ =>
        let line :=
          if actSiginfo then "sigaction," ++ toString signum ++ "," ++ toString actHandler
          else "signal," ++ toString signum ++ "," ++ toString actHandler
        andThen (datalog line s) (fun s1 =>
          .ret 0 { s1 with sigact := { s1.sigact with ret := 0 } })
      | _ =>
        deliverFault (faultSig act) s
    | .SUCCESS => .ret 0 { s with sigact := { s.sigact with ret := 0 } }
    | .BLOCK => .escape .blocked (addErr "sigaction() called, aborting" s)
    | _ =>
      if err = 0 then
        .ret realRet { s with sigact := { s.sigact with ret := realRet },
                              realCalls := s.realCalls ++ ["sigaction"] }
      else .ret (-1) { s with sigact := { s.sigact with ret := -1 } }

/-- `_eval_msgget` (eval.c lines 1892-1947).  Note the `default:` branch of
the inner RETRY `switch` (src line 1915): the −1 is assigned to
`_eval_shmget_data.ret`, not to `_eval_msgget_data.ret`, and the function then
returns the unchanged `_eval_msgget_data.ret`. -/
def _eval_msgget (key msgflg : Int) (realRet : Int) (s0 : CState) : EvalResult Int :=
  let s := { s0 with msgget := { s0.msgget with
    status := s0.msgget.status + 1, key := key, msgflg := msgflg } }
  match s.msgget.action with
  | .RETRY =>
    if s.msgget.status = 1 then
      .ret (-1) { s with msgget := { s.msgget with ret := -1 }, errno := ENOENT }
    else if s.msgget.status = 2 then
      .ret s.msgget.msqid
        { s with msgget := { s.msgget with ret := s.msgget.msqid }, errno := 0 }
    else
      .ret s.msgget.ret
        { s with shmget := { s.shmget with ret := -1 }, errno := EINVAL }
  | .CREATE =>
    if ¬ hasIpcCreat msgflg then
      .ret (-1) { s with msgget := { s.msgget with ret := -1 }, errno := ENOENT }
    else
      .ret s.msgget.msqid { s with msgget := { s.msgget with ret := s.msgget.msqid } }
  | .ERROR => .ret (-1) { s with msgget := { s.msgget with ret := -1 }, errno := EINVAL }
  | .LOG =>
    andThen (datalog ("msgget," ++ toString key ++ "," ++ toString msgflg) s)
      (fun s1 =>
        .ret s1.msgget.msqid
          { s1 with msgget := { s1.msgget with ret := s1.msgget.msqid } })
  | .SUCCESS =>
    .ret s.msgget.msqid { s with msgget := { s.msgget with ret := s.msgget.msqid } }
  | .BLOCK => .escape .blocked (addErr "msgget() called, aborting" s)
  | _ => .ret realRet { s with msgget := { s.msgget with ret := realRet },
                               realCalls := s.realCalls ++ ["msgget"] }

/-- `_eval_semget` (eval.c lines 2233-2293). -/
def _eval_semget (key nsems semflg : Int) (realRet : Int) (s0 : CState) :
    EvalResult Int :=
  let s := { s0 with semget := { s0.semget with
    status := s0.semget.status + 1, key := key, nsems := nsems, semflg := semflg } }
  match s.semget.action with
  | .RETRY =>
    if s.semget.status = 1 then
      .ret (-1) { s with semget := { s.semget with ret := -1 }, errno := ENOENT }
    else if s.semget.status = 2 then
      .ret s.semget.semid
        { s with semget := { s.semget with ret := s.semget.semid }, errno := 0 }
    else
      .ret (-1) { s with semget := { s.semget with ret := -1 }, errno := EINVAL }
  | .CREATE =>
    if nsems = 0 ∧ hasIpcCreat semflg then
      .ret (-1) { s with semget := { s.semget with ret := -1 }, errno := EINVAL }
    else
      .ret s.semget.semid { s with semget := { s.semget with ret := s.semget.semid } }
  | .ERROR => .ret (-1) { s with semget := { s.semget with ret := -1 }, errno := EINVAL }
  | .LOG =>
    andThen (datalog ("semget," ++ toString key ++ "," ++ toString nsems ++ ","
        ++ toString semflg) s)
      (fun s1 =>
        .ret s1.semget.semid
          { s1 with semget := { s1.semget with ret := s1.semget.semid } })
  | .SUCCESS =>
    .ret s.semget.semid { s with semget := { s.semget with ret := s.semget.semid } }
  | .BLOCK => .escape .blocked (addErr "semget() called, aborting" s)
  | _ => .ret realRet { s with semget := { s.semget with ret := realRet },
                               realCalls := s.realCalls ++ ["semget"] }

/-- `_eval_shmget` (eval.c lines 2479-2535).  In the RETRY case the second
call still applies the `size == 0 && (shmflg & IPC_CREAT)` guard, and neither
the second nor the third-and-later branch assigns `errno`; the `default:`
branch stores the real result in `.shmid` and returns it. -/
def _eval_shmget (key : Int) (size : Nat) (shmflg : Int) (realRet : Int)
    (s0 : CState) : EvalResult Int :=
  let s := { s0 with shmget := { s0.shmget with
    status := s0.shmget.status + 1, key := key, size := size, shmflg := shmflg } }
  match s.shmget.action with
  | .RETRY =>
    if s.shmget.status = 1 then
      .ret (-1) { s with shmget := { s.shmget with ret := -1 }, errno := ENOENT }
    else if s.shmget.status = 2 then
      if size = 0 ∧ hasIpcCreat shmflg then
        .ret (-1) { s with shmget := { s.shmget with ret := -1 } }
      else
        .ret s.shmget.shmid { s with shmget := { s.shmget with ret := s.shmget.shmid } }
    else
      .ret (-1) { s with shmget := { s.shmget with ret := -1 } }
  | .CREATE =>
    if size = 0 ∧ hasIpcCreat shmflg then
      .ret (-1) { s with shmget := { s.shmget with ret := -1 } }
    else
      .ret s.shmget.shmid { s with shmget := { s.shmget with ret := s.shmget.shmid } }
  | .ERROR => .ret (-1) { s with shmget := { s.shmget with ret := -1 }, errno := EINVAL }
  | .LOG =>
    andThen (datalog ("shmget," ++ toString key ++ "," ++ toString size ++ ","
        ++ toString shmflg) s)
      (fun s1 =>
        .ret s1.shmget.shmid
          { s1 with shmget := { s1.shmget with ret := s1.shmget.shmid } })
  | .SUCCESS =>
    .ret s.shmget.shmid { s with shmget := { s.shmget with ret := s.shmget.shmid } }
  | .BLOCK => .escape .blocked (addErr "shmget() called, aborting" s)
  | _ => .ret realRet { s with shmget := { s.shmget with shmid := realRet, ret := realRet },
                               realCalls := s.realCalls ++ ["shmget"] }

/-- `_eval_msgrcv` (eval.c lines 2078-2159).  The `msgp` pointer is probed
first, then the counter incremented, then the dispatch.  INJECT copies the
previously captured message into `*msgp` when the pointer was valid; SUCCESS
just captures the parameters and returns `msgsz`. -/
def _eval_msgrcv (msqid : Int) (msgp : Ptr) (msgsz : Nat) (msgtyp : Int)
    (msgflg : Int) (realRet : Int) (s0 : CState) : EvalResult Int :=
  let pr := eval_checkptr msgp s0
  let ck :=
    if pr.1 ≠ 0 then
      ((1 : Nat), addErr "msgrcv() called with invalid pointer (msgp)" pr.2)
    else ((0 : Nat), pr.2)
  let err := ck.1
  let s := ck.2
  let s := { s with msgrcv := { s.msgrcv with status := s.msgrcv.status + 1 } }
  match s0.msgrcv.action with
  | .INJECT =>
    let s := { s with msgrcv := { s.msgrcv with
      msqid := msqid, msgtyp := msgtyp, msgflg := msgflg } }
    let s := if err = 0 then { s with writes := s.writes ++ [msgp] } else s
    .ret (msgsz : Int) { s with msgrcv := { s.msgrcv with
      msgp := msgp, msgsz := msgsz, ret := (msgsz : Int) } }
  | .ERROR =>
    .ret (-1) { s with msgrcv := { s.msgrcv with
      msqid := msqid, msgp := msgp, msgsz := msgsz, msgtyp := msgtyp,
      msgflg := msgflg, ret := -1 } }
  | .LOG =>
    andThen (datalog ("msgrcv," ++ toString msqid ++ "," ++ ptrStr msgp ++ ","
        ++ toString msgsz ++ "," ++ toString msgtyp ++ "," ++ toString msgflg) s)
      (fun s1 =>
        .ret (msgsz : Int) { s1 with msgrcv := { s1.msgrcv with
          msqid := msqid, msgp := msgp, msgsz := msgsz, msgtyp := msgtyp,
          msgflg := msgflg, ret := (msgsz : Int) } })
  | .SUCCESS =>
    .ret (msgsz : Int) { s with msgrcv := { s.msgrcv with
      msqid := msqid, msgp := msgp, msgsz := msgsz, msgtyp := msgtyp,
      msgflg := msgflg, ret := (msgsz : Int) } }
  | .BLOCK => .escape .blocked (addErr "msgrcv() called, aborting" s)
  | _ =>
    let s := { s with msgrcv := { s.msgrcv with
      msqid := msqid, msgp := msgp, msgsz := msgsz, msgtyp := msgtyp,
      msgflg := msgflg } }
    if err = 0 then
      .ret realRet { s with msgrcv := { s.msgrcv with ret := realRet },
                            realCalls := s.realCalls ++ ["msgrcv"] }
    else .ret (-1) { s with msgrcv := { s.msgrcv with ret := -1 } }

/-- `_eval_execl` (eval.c lines 3333-3372).  `pathVal` is the string the
`path` pointer points to (used when the pointer is valid).  Note the dispatch
order: the LOG case falls through into the ERROR case (there is no SUCCESS
case; SUCCESS is handled by the `default:` branch, which attempts the real
`execv`). -/
def _eval_execl (pathPtr : Ptr) (pathVal : String) (realRet : Int)
    (s0 : CState) : EvalResult Int :=
  let s := { s0 with execl := { s0.execl with status := s0.execl.status + 1 } }
  let pr := eval_checkconstptr pathPtr s
  let ck :=
    if pr.1 ≠ 0 then
      ((1 : Nat), addErr "execl(path, ...) invalid path"
        { pr.2 with execl := { pr.2.execl with path := "" } })
    else ((0 : Nat), { pr.2 with execl := { pr.2.execl with path := pathVal } })
  let err := ck.1
  let s := ck.2
  match s0.execl.action with
  | .LOG =>
    andThen (datalog ("execl," ++ s.execl.path) s) (fun s1 =>
      .ret (-1) { s1 with execl := { s1.execl with ret := -1 } })
  | .ERROR => .ret (-1) { s with execl := { s.execl with ret := -1 } }
  | .BLOCK =>
    let s := addErr "execl() called, aborting" s
    .escape .blocked { s with execl := { s.execl with ret := -1 } }
  | _ =>
    if err = 0 then
      .ret realRet { s with execl := { s.execl with ret := realRet },
                            realCalls := s.realCalls ++ ["execv"] }
    else .ret (-1) { s with execl := { s.execl with ret := -1 } }

/-- `_eval_atoi` (eval.c lines 2960-3002).  The pointer check is inverted in
the source: a *valid* `nptr` (checkconstptr returning 0) takes the
"invalid nptr" branch, which reports an error, clears the stored string and
sets `err`, so the `default:` branch never invokes the real `atoi` and
returns the −1 set at entry.  An *invalid* `nptr` takes the other branch,
whose `strncpy(_eval_atoi_data.nptr, nptr, 32)` (src line 2971) reads
through the invalid pointer and raises a hardware fault before the
`eval_error` call and the action dispatch are ever reached
(`deliverFault`): such a call never returns. -/
def _eval_atoi (nptrPtr : Ptr) (nptrVal : String) (realRet : Int)
    (s0 : CState) : EvalResult Int :=
  let s := { s0 with atoi := { s0.atoi with status := s0.atoi.status + 1 } }
  let s := { s with atoi := { s.atoi with ret := -1 } }
  let pr := eval_checkconstptr nptrPtr s
  if pr.1 = 0 then
    let err : Nat := 1
    let s := addErr "atoi(nptr) called with invalid nptr"
      { pr.2 with atoi := { pr.2.atoi with nptr := "" } }
    match s0.atoi.action with
    | .ERROR => .ret INT32_MIN { s with atoi := { s.atoi with ret := INT32_MIN } }
    | .LOG =>
      andThen (datalog ("atoi," ++ s.atoi.nptr) s) (fun s1 =>
        .ret s1.atoi.ret s1)
    | .SUCCESS => .ret s.atoi.ret s
    | .BLOCK => .escape .blocked (addErr "atoi() called, aborting" s)
    | _ =>
      if err = 0 then
        .ret realRet { s with atoi := { s.atoi with ret := realRet },
                              realCalls := s.realCalls ++ ["atoi"] }
      else .ret (-1) { s with atoi := { s.atoi with ret := -1 } }
  else
    deliverFault (faultSig nptrPtr) pr.2

/-!  ## Auxiliary observers and a reset state -/

/-- The escape code, when the call escaped via `siglongjmp`. -/
def escaped {α : Type} : EvalResult α → Option CatchCode
  | .escape c _ => some c
  | .ret _ _ => none
  | .exited _ _ => none
  | .fatal _ _ => none

/-- A pointer the probe classifies as invalid without being NULL (NULL is
special-cased by several intercepts, which skip the probe for it). -/
def badPtr : Ptr → Bool
  | .neg1 => true
  | .segv _ => true
  | .buserr _ => true
  | .null => false
  | .valid _ => false

/-- A pointer through which any memory access faults: NULL, the
`(void *) -1` sentinel, or an unmapped (SIGSEGV/SIGBUS) address — everything
the probe classifies with a nonzero return code. -/
def invalidPtr : Ptr → Bool
  | .valid _ => false
  | _ => true

/-- The fault signal, when the call died on an uncaught hardware fault. -/
def fatalSig {α : Type} : EvalResult α → Option Int
  | .fatal sig _ => some sig
  | .ret _ _ => none
  | .escape _ _ => none
  | .exited _ _ => none

/-- Zeroed stats (the effect of `eval_reset_stats`). -/
def stats0 : EvalStats := { error := 0, info := 0, errorMsgs := [] }

/-- The state after `eval_reset_vars` / `eval_clear_logs`, specialised to the
records modelled here: every counter zero, every action the `default:` value,
all three logs empty, catch armed. -/
def initState : CState :=
  { stats := stats0
    errno := 0
    catchFlag := true
    data_log := initlog
    error_log := initlog
    success_log := initlog
    writes := []
    realCalls := []
    sleep := { status := 0, action := .DEFAULT, seconds := 0, ret := 0 }
    wait := { status := 0, action := .DEFAULT, ret := 0, stat_loc := .null }
    kill := { status := 0, action := .DEFAULT, pid := 0, sig := 0, ret := 0 }
    signal := { status := 0, action := .DEFAULT, signum := 0, handler := 0, ret := 0 }
    sigact := { status := 0, action := .DEFAULT, signum := 0, act := .null,
                oldact := .null, ret := 0 }
    msgget := { status := 0, action := .DEFAULT, key := 0, msgflg := 0, msqid := 0, ret := 0 }
    semget := { status := 0, action := .DEFAULT, key := 0, nsems := 0, semflg := 0,
                semid := 0, ret := 0 }
    shmget := { status := 0, action := .DEFAULT, key := 0, size := 0, shmflg := 0,
                shmid := 0, ret := 0 }
    msgrcv := { status := 0, action := .DEFAULT, msqid := 0, msgp := .null, msgsz := 0,
                msgtyp := 0, msgflg := 0, ret := 0 }
    execl := { status := 0, action := .DEFAULT, path := "", ret := 0 }
    atoi := { status := 0, action := .DEFAULT, nptr := "", ret := 0 } }

/-- Comparison relation for claim C3, stated from the spec's words ("LOG
appends one audit line to the data log and then returns exactly the same
result, and performs the same caller-visible effects, as the same call under
SUCCESS"): `r`, the result of the LOG-configured call, returns the same
value, escapes or dies the same way, and leaves the same real-call trace,
memory writes, errno, error statistics and error/success logs as `rS`, the
result of the same call under SUCCESS — and its data log holds exactly one
extra line, `line`, written at the SUCCESS call's tail position, all other
slots unchanged. -/
def logMatchesSuccess {α : Type} (r rS : EvalResult α) (line : String) : Prop :=
  retVal r = retVal rS ∧
  escaped r = escaped rS ∧
  fatalSig r = fatalSig rS ∧
  (finalState r).realCalls = (finalState rS).realCalls ∧
  (finalState r).writes = (finalState rS).writes ∧
  (finalState r).errno = (finalState rS).errno ∧
  (finalState r).stats = (finalState rS).stats ∧
  (finalState r).error_log = (finalState rS).error_log ∧
  (finalState r).success_log = (finalState rS).success_log ∧
  (finalState r).data_log.stop = (finalState rS).data_log.stop + 1 ∧
  (∀ i : Nat, i ≠ (finalState rS).data_log.stop →
    (finalState r).data_log.buffer i = (finalState rS).data_log.buffer i) ∧
  (finalState r).data_log.buffer ((finalState rS).data_log.stop) = line

/-- The final state of a delivered fault: the handler error message is
reported when capture is armed, the state is untouched otherwise. -/
theorem finalState_deliverFault {α : Type} (sig : Int) (t : CState) :
    finalState (deliverFault sig t : EvalResult α)
      = if t.catchFlag then addErr (sighandlerMsg sig) t else t := by
  simp only [deliverFault]
  split <;> rfl

/-- `deliverFault` never returns a value. -/
theorem retVal_deliverFault {α : Type} (sig : Int) (t : CState) :
    retVal (deliverFault sig t : EvalResult α) = none := by
  simp only [deliverFault]
  split <;> rfl

/-- With capture armed, `deliverFault` escapes with the SignalCaught code. -/
theorem escaped_deliverFault_armed {α : Type} (sig : Int) (t : CState)
    (h : t.catchFlag = true) :
    escaped (deliverFault sig t : EvalResult α) = some .signal := by
  simp [deliverFault, escaped, h]

/-- With capture disarmed, `deliverFault` kills the process on the fault
signal. -/
theorem fatalSig_deliverFault_disarmed {α : Type} (sig : Int) (t : CState)
    (h : t.catchFlag = false) :
    fatalSig (deliverFault sig t : EvalResult α) = some sig := by
  simp [deliverFault, fatalSig, h]

/-!  ## Claim C1 -/

/-- Claim C1 (code bug): the claim states that after each pointer probe the
dispositions of both SIGSEGV and SIGBUS equal those in effect before the
call, the saved SIGBUS one going back to SIGBUS.  The source saves the prior
SIGBUS disposition into `tmp[1]` but restores SIGBUS from `tmp[0]` (eval.c
lines 792 and 870), so with prior dispositions SIGSEGV ↦ 3, SIGBUS ↦ 4,
probe handler 7 and a valid pointer, both probes leave SIGBUS at 3, the
prior SIGSEGV disposition, instead of the saved 4. -/
theorem checkptr_sigbus_restore_bug :
    eval_checkptr_sig 7 (.valid 0) { segv := 3, bus := 4 } = { segv := 3, bus := 3 } ∧
    eval_checkconstptr_sig 7 (.valid 0) { segv := 3, bus := 4 } = { segv := 3, bus := 3 } ∧
    ({ segv := 3, bus := 3 } : SigDisp) ≠ { segv := 3, bus := 4 } := by
  decide

/-!  ## Claim C7 -/

/-- Claim C7: appending to a log already holding `LOGSIZE` lines always
produces the LogOverflow outcome — an escape carrying
`EVAL_CATCH_LOG_OVERFLOW` when the catch flag is armed, a process exit
otherwise (after reporting two errors) — while an append to a log holding at
most `LOGSIZE − 1` lines hands out the tail slot and never overflows. -/
theorem newline_overflow_law (cap : Nat) (catchFlag : Bool) (log : Log)
    (st : EvalStats) :
    (log.stop = cap →
      newline cap catchFlag log st =
        (let st2 := eval_error ("Last message was: " ++ log.buffer (cap - 1))
          (eval_error "No more space in logbuffer, aborting" st)
         if catchFlag then (NewlineOut.escape .log_overflow, st2)
         else (NewlineOut.exited 1, st2))) ∧
    (log.stop < cap →
      newline cap catchFlag log st =
        (NewlineOut.written log.stop
          { log with start := if log.start < 0 then 0 else log.start,
                     stop := log.stop + 1 }, st)) := by
  constructor
  · intro h
    unfold newline
    rw [if_neg (by omega)]
  · intro h
    unfold newline
    rw [if_pos h]

/-- Witness for C7: at capacity 1 an append to the empty log succeeds at slot
0, and at capacity 0 (a log already at capacity) the armed append escapes
with the LogOverflow classification. -/
theorem newline_overflow_law_witness :
    newline 1 false initlog stats0 =
      (NewlineOut.written initlog.stop
        { initlog with start := if initlog.start < 0 then 0 else initlog.start,
                       stop := initlog.stop + 1 }, stats0) ∧
    newline 0 true initlog stats0 =
      (let st2 := eval_error ("Last message was: " ++ initlog.buffer (0 - 1))
        (eval_error "No more space in logbuffer, aborting" stats0)
       if true then (NewlineOut.escape .log_overflow, st2)
       else (NewlineOut.exited 1, st2)) :=
  ⟨(newline_overflow_law 1 false initlog stats0).2 (by decide),
   (newline_overflow_law 0 true initlog stats0).1 (by decide)⟩

/-!  ## Claim C4 -/

/-- A one-line log whose head line is "abc". -/
def rmheadLog : Log := { start := 0, stop := 1, buffer := fun _ => "abc" }

/-- Counterexample to claim C4 as stated: `rmheadmsg` succeeds and advances
the head for the message "b", which occurs inside the head line "abc" but is
not equal to it under any bounded-length exact comparison — the source
matches with `strstr` (substring containment), not `strncmp`. -/
theorem rmheadmsg_not_exact_comparison :
    (rmheadmsg rmheadLog "b").1 = 0 ∧
    (rmheadmsg rmheadLog "b").2.start = 1 ∧
    loghead rmheadLog ≠ "b" := by
  refine ⟨?_, ?_, ?_⟩ <;> decide

/-- Claim C4 amended: `rmheadmsg` advances the head and returns success
exactly when the log is non-empty (`start ≥ 0`) and the supplied message
occurs as a substring of the current head line (C `strstr`); on an empty log
or a non-occurrence it performs no mutation and returns failure, and in the
success case only the head index changes (no line is reordered or skipped). -/
theorem rmheadmsg_fifo_law (log : Log) (msg : String) :
    (log.start < 0 → rmheadmsg log msg = (-1, log)) ∧
    (0 ≤ log.start → strstrS (log.buffer log.start.toNat) msg = true →
      rmheadmsg log msg = (0, { log with start := log.start + 1 })) ∧
    (0 ≤ log.start → strstrS (log.buffer log.start.toNat) msg = false →
      rmheadmsg log msg = (-1, log)) := by
  refine ⟨?_, ?_, ?_⟩
  · intro h
    unfold rmheadmsg
    rw [if_pos h]
  · intro h1 h2
    unfold rmheadmsg
    rw [if_neg (by omega), if_pos h2]
  · intro h1 h2
    unfold rmheadmsg
    rw [if_neg (by omega), if_neg (by simp [h2])]

/-- Witness for the amended C4: on the log with head "abc", popping with
message "b" succeeds and advances the head, and popping with message "zz"
fails and leaves the log untouched. -/
theorem rmheadmsg_fifo_law_witness :
    rmheadmsg rmheadLog "b" = (0, { rmheadLog with start := rmheadLog.start + 1 }) ∧
    rmheadmsg rmheadLog "zz" = (-1, rmheadLog) :=
  ⟨(rmheadmsg_fifo_law rmheadLog "b").2.1 (by decide) (by decide),
   (rmheadmsg_fifo_law rmheadLog "zz").2.2 (by decide) (by decide)⟩

/-!  ## Claim C2 -/

/-- Reset state with `msgget` configured to RETRY and msqid 5. -/
def c2msgS : CState :=
  { initState with msgget := { initState.msgget with action := .RETRY, msqid := 5 } }

/-- State after the first RETRY `msgget` call. -/
def c2msg1 : CState := finalState (_eval_msgget 1 0 0 c2msgS)

/-- State after the second RETRY `msgget` call. -/
def c2msg2 : CState := finalState (_eval_msgget 1 0 0 c2msg1)

/-- Reset state with `semget` configured to RETRY and semid 7. -/
def c2semS : CState :=
  { initState with semget := { initState.semget with action := .RETRY, semid := 7 } }

/-- State after the first RETRY `semget` call. -/
def c2sem1 : CState := finalState (_eval_semget 1 1 0 0 c2semS)

/-- State after the second RETRY `semget` call. -/
def c2sem2 : CState := finalState (_eval_semget 1 1 0 0 c2sem1)

/-- Reset state with `shmget` configured to RETRY and shmid 9. -/
def c2shmS : CState :=
  { initState with shmget := { initState.shmget with action := .RETRY, shmid := 9 } }

/-- State after the first RETRY `shmget` call (size 4, flags 0). -/
def c2shm1 : CState := finalState (_eval_shmget 1 4 0 0 c2shmS)

/-- State after the second RETRY `shmget` call. -/
def c2shm2 : CState := finalState (_eval_shmget 1 4 0 0 c2shm1)

/-- Claim C2 (code bug), evaluated on three consecutive RETRY calls of each
identifier-acquisition intercept starting from a reset counter.  For
`msgget`, calls 1 and 2 behave as documented, but the third call stores the
−1 into `_eval_shmget_data.ret` (src line 1915) and returns the stale
`_eval_msgget_data.ret`, i.e. the configured msqid 5, with errno EINVAL —
not −1 as the claim and the function's own doc comment ("fail on remaining
attempts (EINVAL)") state.  For `semget` the claim holds on all three calls.
For `shmget` the third call does return −1 but never assigns EINVAL, leaving
errno at the ENOENT of call 1. -/
theorem ipcget_retry_law_bug :
    (retVal (_eval_msgget 1 0 0 c2msgS) = some (-1) ∧ c2msg1.errno = ENOENT) ∧
    (retVal (_eval_msgget 1 0 0 c2msg1) = some 5 ∧ c2msg2.errno = 0) ∧
    (retVal (_eval_msgget 1 0 0 c2msg2) = some 5 ∧
      retVal (_eval_msgget 1 0 0 c2msg2) ≠ some (-1) ∧
      (finalState (_eval_msgget 1 0 0 c2msg2)).errno = EINVAL ∧
      (finalState (_eval_msgget 1 0 0 c2msg2)).shmget.ret = -1) ∧
    (retVal (_eval_semget 1 1 0 0 c2semS) = some (-1) ∧ c2sem1.errno = ENOENT) ∧
    (retVal (_eval_semget 1 1 0 0 c2sem1) = some 7 ∧ c2sem2.errno = 0) ∧
    (retVal (_eval_semget 1 1 0 0 c2sem2) = some (-1) ∧
      (finalState (_eval_semget 1 1 0 0 c2sem2)).errno = EINVAL) ∧
    (retVal (_eval_shmget 1 4 0 0 c2shmS) = some (-1) ∧ c2shm1.errno = ENOENT) ∧
    (retVal (_eval_shmget 1 4 0 0 c2shm1) = some 9 ∧ c2shm2.errno = ENOENT) ∧
    (retVal (_eval_shmget 1 4 0 0 c2shm2) = some (-1) ∧
      (finalState (_eval_shmget 1 4 0 0 c2shm2)).errno = ENOENT ∧
      (finalState (_eval_shmget 1 4 0 0 c2shm2)).errno ≠ EINVAL) := by
  decide

/-!  ## Claim C3 -/

/-- Counterexample to claim C3 as stated ("for every intercepted operation,
LOG appends the audit line and then returns exactly the same result and
caller-visible effects as SUCCESS"): for `_eval_execl` the LOG case falls
through into the ERROR case (there is no SUCCESS case in its dispatch), so
with a valid path and an empty data log the LOG call returns −1 and performs
no real call, while the same call under SUCCESS reaches the `default:`
branch and attempts the real `execv` (here returning 0). -/
theorem execl_log_is_not_success :
    retVal (_eval_execl (.valid 10) "prog" 0
      { initState with execl := { initState.execl with action := .LOG } }) = some (-1) ∧
    retVal (_eval_execl (.valid 10) "prog" 0
      { initState with execl := { initState.execl with action := .SUCCESS } }) = some 0 ∧
    (finalState (_eval_execl (.valid 10) "prog" 0
      { initState with execl := { initState.execl with action := .LOG } })).realCalls = [] ∧
    (finalState (_eval_execl (.valid 10) "prog" 0
      { initState with execl := { initState.execl with action := .SUCCESS } })).realCalls
      = ["execv"] := by
  decide

set_option maxHeartbeats 8000000 in
/-- Claim C3 amended: for every modelled intercept that can reach its LOG
case — `_eval_sleep`, `_eval_wait` (any `stat_loc`), `_eval_kill`,
`_eval_signal` (non-reserved `signum`), `_eval_sigaction` (non-reserved
`signum` and a *valid* `act`, since its LOG branch dereferences `act`,
eval.c line 1767), `_eval_msgget`, `_eval_semget`, `_eval_shmget`,
`_eval_msgrcv` (any `msgp`) and `_eval_atoi` (a *valid* `nptr`, since an
invalid one faults before the dispatch) — a LOG call on a non-full data log
appends one comma-separated audit line and otherwise returns exactly the
SUCCESS result and caller-visible effects.  The two exceptions: for
`_eval_execl` the LOG case falls through into ERROR (−1, no real exec,
while SUCCESS attempts the real `execv`), and for `_eval_sigaction` with an
invalid `act` the LOG branch faults and never returns while SUCCESS returns
0. -/
theorem log_fallthrough_refined (s : CState)
    (seconds realRet mypid ppid pid sig signum handler ah key msgflg
      skey nsems semflg hkey shmflg msqid msgtyp mflg : Int)
    (size msgsz a a2 : Nat) (asi : Bool) (stat_loc msgp oldact act2 : Ptr)
    (nptrVal pathVal : String)
    (hlog : s.data_log.stop < LOGSIZE)
    (hns : ¬(signum = SIGPROF ∨ signum = SIGSEGV ∨ signum = SIGBUS ∨
      signum = SIGFPE ∨ signum = SIGILL)) :
    logMatchesSuccess
      (_eval_sleep seconds realRet
        { s with sleep := { s.sleep with action := .LOG } })
      (_eval_sleep seconds realRet
        { s with sleep := { s.sleep with action := .SUCCESS } })
      ("sleep," ++ toString seconds) ∧
    logMatchesSuccess
      (_eval_wait stat_loc realRet
        { s with wait := { s.wait with action := .LOG } })
      (_eval_wait stat_loc realRet
        { s with wait := { s.wait with action := .SUCCESS } })
      ("wait," ++ ptrStr stat_loc) ∧
    logMatchesSuccess
      (_eval_kill mypid ppid pid sig realRet
        { s with kill := { s.kill with action := .LOG } })
      (_eval_kill mypid ppid pid sig realRet
        { s with kill := { s.kill with action := .SUCCESS } })
      ("kill," ++ toString pid ++ "," ++ toString sig) ∧
    logMatchesSuccess
      (_eval_signal signum handler realRet
        { s with signal := { s.signal with action := .LOG } })
      (_eval_signal signum handler realRet
        { s with signal := { s.signal with action := .SUCCESS } })
      ("signal," ++ toString signum ++ "," ++ toString handler) ∧
    logMatchesSuccess
      (_eval_sigaction signum (.valid a) asi ah oldact realRet
        { s with sigact := { s.sigact with action := .LOG } })
      (_eval_sigaction signum (.valid a) asi ah oldact realRet
        { s with sigact := { s.sigact with action := .SUCCESS } })
      (if asi then "sigaction," ++ toString signum ++ "," ++ toString ah
       else "signal," ++ toString signum ++ "," ++ toString ah) ∧
    logMatchesSuccess
      (_eval_msgget key msgflg realRet
        { s with msgget := { s.msgget with action := .LOG } })
      (_eval_msgget key msgflg realRet
        { s with msgget := { s.msgget with action := .SUCCESS } })
      ("msgget," ++ toString key ++ "," ++ toString msgflg) ∧
    logMatchesSuccess
      (_eval_semget skey nsems semflg realRet
        { s with semget := { s.semget with action := .LOG } })
      (_eval_semget skey nsems semflg realRet
        { s with semget := { s.semget with action := .SUCCESS } })
      ("semget," ++ toString skey ++ "," ++ toString nsems ++ ","
        ++ toString semflg) ∧
    logMatchesSuccess
      (_eval_shmget hkey size shmflg realRet
        { s with shmget := { s.shmget with action := .LOG } })
      (_eval_shmget hkey size shmflg realRet
        { s with shmget := { s.shmget with action := .SUCCESS } })
      ("shmget," ++ toString hkey ++ "," ++ toString size ++ ","
        ++ toString shmflg) ∧
    logMatchesSuccess
      (_eval_msgrcv msqid msgp msgsz msgtyp mflg realRet
        { s with msgrcv := { s.msgrcv with action := .LOG } })
      (_eval_msgrcv msqid msgp msgsz msgtyp mflg realRet
        { s with msgrcv := { s.msgrcv with action := .SUCCESS } })
      ("msgrcv," ++ toString msqid ++ "," ++ ptrStr msgp ++ ","
        ++ toString msgsz ++ "," ++ toString msgtyp ++ "," ++ toString mflg) ∧
    logMatchesSuccess
      (_eval_atoi (.valid a2) nptrVal realRet
        { s with atoi := { s.atoi with action := .LOG } })
      (_eval_atoi (.valid a2) nptrVal realRet
        { s with atoi := { s.atoi with action := .SUCCESS } })
      ("atoi," ++ "") ∧
    (_eval_execl (.valid a) pathVal realRet
        { s with execl := { s.execl with action := .LOG } } =
      .ret (-1) { s with
        execl := { s.execl with
          action := .LOG, status := s.execl.status + 1, path := pathVal, ret := -1 },
        data_log := logWrite
          { s.data_log with
            start := if s.data_log.start < 0 then 0 else s.data_log.start,
            stop := s.data_log.stop + 1 }
          s.data_log.stop ("execl," ++ pathVal) }) ∧
    (_eval_execl (.valid a) pathVal realRet
        { s with execl := { s.execl with action := .SUCCESS } } =
      .ret realRet { s with
        execl := { s.execl with
          action := .SUCCESS, status := s.execl.status + 1, path := pathVal,
          ret := realRet },
        realCalls := s.realCalls ++ ["execv"] }) ∧
    (invalidPtr act2 = true →
      retVal (_eval_sigaction signum act2 asi ah oldact realRet
        { s with sigact := { s.sigact with action := .LOG } }) = none ∧
      retVal (_eval_sigaction signum act2 asi ah oldact realRet
        { s with sigact := { s.sigact with action := .SUCCESS } }) = some 0) := by
  have e1 : ¬(signum = SIGPROF) := fun hx => hns (Or.inl hx)
  have e2 : ¬(signum = SIGSEGV) := fun hx => hns (Or.inr (Or.inl hx))
  have e3 : ¬(signum = SIGBUS) := fun hx => hns (Or.inr (Or.inr (Or.inl hx)))
  have e4 : ¬(signum = SIGFPE) := fun hx => hns (Or.inr (Or.inr (Or.inr (Or.inl hx))))
  have e5 : ¬(signum = SIGILL) := fun hx => hns (Or.inr (Or.inr (Or.inr (Or.inr hx))))
  refine ⟨?_, ?_, ?_, ?_, ?_, ?_, ?_, ?_, ?_, ?_, ?_, ?_, ?_⟩
  · unfold _eval_sleep andThen datalog newline
    dsimp only
    rw [if_pos hlog]
    exact ⟨rfl, rfl, rfl, rfl, rfl, rfl, rfl, rfl, rfl, rfl,
      fun i hi => by simp [finalState] at hi; simp [finalState, logWrite, hi], by simp [finalState, logWrite]⟩
  · cases stat_loc <;>
      (unfold _eval_wait eval_checkptr addErr andThen datalog newline
       dsimp only
       simp
       rw [if_pos hlog]
       exact ⟨rfl, rfl, rfl, rfl, rfl, rfl, rfl, rfl, rfl, rfl,
         fun i hi => by simp [finalState] at hi; simp [finalState, logWrite, hi], by simp [finalState, logWrite]⟩)
  · unfold _eval_kill andThen datalog newline
    dsimp only
    rw [if_pos hlog]
    exact ⟨rfl, rfl, rfl, rfl, rfl, rfl, rfl, rfl, rfl, rfl,
      fun i hi => by simp [finalState] at hi; simp [finalState, logWrite, hi], by simp [finalState, logWrite]⟩
  · unfold _eval_signal andThen datalog newline
    dsimp only
    simp [e1, e2, e3, e4, e5]
    rw [if_pos hlog]
    exact ⟨rfl, rfl, rfl, rfl, rfl, rfl, rfl, rfl, rfl, rfl,
      fun i hi => by simp [finalState] at hi; simp [finalState, logWrite, hi], by simp [finalState, logWrite]⟩
  · cases oldact <;>
      (unfold _eval_sigaction sigactionChecks sigactionMsg eval_checkptr
        eval_checkconstptr addErr andThen datalog newline
       dsimp only
       simp [e1, e2, e3, e4, e5]
       rw [if_pos hlog]
       exact ⟨rfl, rfl, rfl, rfl, rfl, rfl, rfl, rfl, rfl, rfl,
         fun i hi => by simp [finalState] at hi; simp [finalState, logWrite, hi], by simp [finalState, logWrite]⟩)
  · unfold _eval_msgget andThen datalog newline
    dsimp only
    rw [if_pos hlog]
    exact ⟨rfl, rfl, rfl, rfl, rfl, rfl, rfl, rfl, rfl, rfl,
      fun i hi => by simp [finalState] at hi; simp [finalState, logWrite, hi], by simp [finalState, logWrite]⟩
  · unfold _eval_semget andThen datalog newline
    dsimp only
    rw [if_pos hlog]
    exact ⟨rfl, rfl, rfl, rfl, rfl, rfl, rfl, rfl, rfl, rfl,
      fun i hi => by simp [finalState] at hi; simp [finalState, logWrite, hi], by simp [finalState, logWrite]⟩
  · unfold _eval_shmget andThen datalog newline
    dsimp only
    rw [if_pos hlog]
    exact ⟨rfl, rfl, rfl, rfl, rfl, rfl, rfl, rfl, rfl, rfl,
      fun i hi => by simp [finalState] at hi; simp [finalState, logWrite, hi], by simp [finalState, logWrite]⟩
  · cases msgp <;>
      (unfold _eval_msgrcv eval_checkptr addErr andThen datalog newline
       dsimp only
       simp
       rw [if_pos hlog]
       exact ⟨rfl, rfl, rfl, rfl, rfl, rfl, rfl, rfl, rfl, rfl,
         fun i hi => by simp [finalState] at hi; simp [finalState, logWrite, hi], by simp [finalState, logWrite]⟩)
  · unfold _eval_atoi eval_checkconstptr addErr andThen datalog newline
    dsimp only
    simp
    rw [if_pos hlog]
    exact ⟨rfl, rfl, rfl, rfl, rfl, rfl, rfl, rfl, rfl, rfl,
      fun i hi => by simp [finalState] at hi; simp [finalState, logWrite, hi], by simp [finalState, logWrite]⟩
  · unfold _eval_execl eval_checkconstptr andThen datalog newline
    dsimp only
    rw [if_neg (show ¬((0 : Nat) ≠ 0) by decide)]
    dsimp only
    rw [if_pos hlog]
  · rfl
  · intro hbad
    cases act2
    case valid a3 => exact absurd hbad (by simp [invalidPtr])
    all_goals
      refine ⟨?_, ?_⟩
      · unfold _eval_sigaction
        dsimp only
        rw [if_neg hns]
        exact retVal_deliverFault _ _
      · unfold _eval_sigaction
        dsimp only
        rw [if_neg hns]
        rfl

/-- Witness for the amended C3 at the reset state: with an empty data log,
the LOG-configured sleep matches its SUCCESS twin up to the audit line, the
LOG-configured execl returns −1 (the ERROR value), and the LOG-configured
sigaction on a NULL `act` returns nothing. -/
theorem log_fallthrough_refined_witness :
    retVal (_eval_sleep 3 0
      { initState with sleep := { initState.sleep with action := .LOG } }) =
      retVal (_eval_sleep 3 0
        { initState with sleep := { initState.sleep with action := .SUCCESS } }) ∧
    retVal (_eval_execl (.valid 10) "prog" 0
      { initState with execl := { initState.execl with action := .LOG } }) = some (-1) ∧
    retVal (_eval_sigaction 2 .null true 6 .null 0
      { initState with sigact := { initState.sigact with action := .LOG } }) = none := by
  have h := log_fallthrough_refined initState 3 0 1 2 3 4 2 5 6 7 8 9 10 11 12 13
    14 15 16 17 18 10 20 true .null .null .null .null "42" "prog"
    (by decide) (by decide)
  exact ⟨h.1.1, by rw [h.2.2.2.2.2.2.2.2.2.2.1]; rfl,
    (h.2.2.2.2.2.2.2.2.2.2.2.2 rfl).1⟩

/-!  ## Claim C5 -/

/-- Reset state with the `wait` intercept configured to SUCCESS. -/
def c5s : CState := { initState with wait := { initState.wait with action := .SUCCESS } }

/-- Counterexample to claim C5 as stated: with the action SUCCESS (which is
neither BLOCK nor an error action) and the invalid sentinel pointer
`(void *) -1` as `stat_loc`, `_eval_wait` still returns the fabricated
success value 0, not the conventional failure value −1; the invalidity is
only reported through the error counter (probe error plus wait error). -/
theorem wait_invalid_ptr_not_error :
    retVal (_eval_wait .neg1 0 c5s) = some 0 ∧
    retVal (_eval_wait .neg1 0 c5s) ≠ some (-1) ∧
    (finalState (_eval_wait .neg1 0 c5s)).stats.error = 2 := by
  decide

/-- Claim C5 amended: pointer parameters are probed before the action
dispatch; under DEFAULT an invalid pointer forces the conventional failure
return −1 and the real operation is never invoked; under BLOCK the call
escapes with the Blocked outcome; but under SUCCESS the fabricated success
value is still returned (for `wait` the adjusted stored value, for `msgrcv`
the requested `msgsz`) — only the output copy into the caller's buffer is
suppressed. -/
theorem invalid_ptr_refined (s : CState) (p : Ptr)
    (realRet msqid msgtyp msgflg : Int) (msgsz : Nat)
    (hp : badPtr p = true) :
    (s.wait.action = .DEFAULT →
      retVal (_eval_wait p realRet s) = some (-1) ∧
      (finalState (_eval_wait p realRet s)).realCalls = s.realCalls) ∧
    (s.wait.action = .BLOCK →
      escaped (_eval_wait p realRet s) = some .blocked) ∧
    (s.wait.action = .SUCCESS →
      retVal (_eval_wait p realRet s) =
        some (if s.wait.ret < 0 then 0 else s.wait.ret) ∧
      (finalState (_eval_wait p realRet s)).writes = s.writes) ∧
    (s.msgrcv.action = .DEFAULT →
      retVal (_eval_msgrcv msqid p msgsz msgtyp msgflg realRet s) = some (-1) ∧
      (finalState (_eval_msgrcv msqid p msgsz msgtyp msgflg realRet s)).realCalls
        = s.realCalls) ∧
    (s.msgrcv.action = .BLOCK →
      escaped (_eval_msgrcv msqid p msgsz msgtyp msgflg realRet s) = some .blocked) ∧
    (s.msgrcv.action = .SUCCESS →
      retVal (_eval_msgrcv msqid p msgsz msgtyp msgflg realRet s) = some (msgsz : Int) ∧
      (finalState (_eval_msgrcv msqid p msgsz msgtyp msgflg realRet s)).writes
        = s.writes) := by
  refine ⟨?_, ?_, ?_, ?_, ?_, ?_⟩ <;> intro h <;> cases p <;>
    simp [badPtr] at hp <;>
    simp [_eval_wait, _eval_msgrcv, eval_checkptr, addErr, h, escaped, retVal,
      finalState]

/-- Witness for the amended C5 at the reset state (action DEFAULT) with the
sentinel pointer: `wait` returns −1 and no real call is recorded. -/
theorem invalid_ptr_refined_witness :
    retVal (_eval_wait .neg1 0 initState) = some (-1) ∧
    (finalState (_eval_wait .neg1 0 initState)).realCalls = [] :=
  (invalid_ptr_refined initState .neg1 0 0 0 0 0 (by decide)).1 rfl

/-!  ## Claim C6 -/

/-- Reset state with the `kill` intercept configured to PROTECT. -/
def c6s : CState := { initState with kill := { initState.kill with action := .PROTECT } }

/-- Counterexample to claim C6 as stated: a PROTECT `kill` aimed at the
caller's own pid (getpid 100, getppid 50) returns 0, never invokes the real
`kill`, and records exactly one error message naming the prevented target
class — but the message goes through `eval_error` (console plus error
counter), not into `_error_log`: the error log stays empty, so its head is
"<empty>" and does not contain "prevented sending signal to self". -/
theorem kill_protect_no_errorlog_entry :
    retVal (_eval_kill 100 50 100 15 0 c6s) = some 0 ∧
    (finalState (_eval_kill 100 50 100 15 0 c6s)).realCalls = [] ∧
    (finalState (_eval_kill 100 50 100 15 0 c6s)).stats.errorMsgs =
      ["(kill) prevented sending signal to self"] ∧
    loghead (finalState (_eval_kill 100 50 100 15 0 c6s)).error_log = "<empty>" ∧
    strstrS (loghead (finalState (_eval_kill 100 50 100 15 0 c6s)).error_log)
      "prevented sending signal to self" = false := by
  decide

/-- The single error message the PROTECT guards of `_eval_kill` produce for a
protected target (the guards run in source order: self, parent, process
group, owner). -/
def protectMsg (mypid ppid pid : Int) : String :=
  if mypid = pid then "(kill) prevented sending signal to self"
  else if ppid = pid then "(kill) prevented sending signal to parent"
  else if (0 : Int) = pid then
    "(kill) prevented sending signal to every process in the process group"
  else "(kill) prevented sending signal to to every process belonging to process owner"

/-- Claim C6 amended: a PROTECT `kill` whose target pid is the caller's pid,
the parent's pid, 0 or −1 (with distinct positive getpid/getppid) returns 0,
never invokes the real `kill`, and records exactly one error message naming
the prevented target class through `eval_error` (error counter plus console
message); the `_error_log` buffer — and every other part of the state — is
untouched. -/
theorem kill_protect_refined (s : CState) (mypid ppid pid sig realRet : Int)
    (ha : s.kill.action = .PROTECT) (h1 : 0 < mypid) (h2 : 0 < ppid)
    (h3 : mypid ≠ ppid)
    (h4 : pid = mypid ∨ pid = ppid ∨ pid = 0 ∨ pid = -1) :
    _eval_kill mypid ppid pid sig realRet s =
      .ret 0 { s with
        stats := eval_error (protectMsg mypid ppid pid) s.stats,
        kill := { s.kill with
          status := s.kill.status + 1, pid := pid, sig := sig, ret := 0 } } := by
  unfold _eval_kill protectMsg
  dsimp only
  rw [ha]
  rcases h4 with h|h|h|h <;> subst h
  · have e2 : ¬(ppid = pid) := fun hh => h3 hh.symm
    have e3 : ¬((0 : Int) = pid) := by omega
    have e4 : ¬((-1 : Int) = pid) := by omega
    simp [e2, e3, e4, addErr]
  · have e1 : ¬(mypid = pid) := h3
    have e3 : ¬((0 : Int) = pid) := by omega
    have e4 : ¬((-1 : Int) = pid) := by omega
    simp [e1, e3, e4, addErr]
  · have e1 : ¬(mypid = 0) := by omega
    have e2 : ¬(ppid = 0) := by omega
    have e4 : ¬((-1 : Int) = 0) := by omega
    simp [e1, e2, e4, addErr]
  · have e1 : ¬(mypid = -1) := by omega
    have e2 : ¬(ppid = -1) := by omega
    have e3 : ¬((0 : Int) = -1) := by omega
    simp [e1, e2, e3, addErr]

/-- Witness for the amended C6: PROTECT kill at the caller's own pid
(getpid 100, getppid 50, signal 15) from the reset state. -/
theorem kill_protect_refined_witness :
    _eval_kill 100 50 100 15 0 c6s =
      .ret 0 { c6s with
        stats := eval_error (protectMsg 100 50 100) c6s.stats,
        kill := { c6s.kill with
          status := c6s.kill.status + 1, pid := 100, sig := 15, ret := 0 } } :=
  kill_protect_refined c6s 100 50 100 15 0 rfl (by decide) (by decide) (by decide)
    (Or.inl rfl)

/-!  ## Claim C8 -/

/-- `datalog` touches only the data log and the stats: every observation `g`
of the state that ignores those two fields is preserved, whichever way the
append ends. -/
theorem datalog_keeps {β : Type} (g : CState → β)
    (hkeep : ∀ t d st, g { t with data_log := d, stats := st } = g t)
    (line : String) (s : CState) :
    g (finalState (datalog line s)) = g s := by
  unfold datalog
  cases hnl : newline LOGSIZE s.catchFlag s.data_log s.stats with
  | mk out st2 =>
    cases out with
    | written pos log2 => exact hkeep s (logWrite log2 pos line) st2
    | escape c => exact hkeep s s.data_log st2
    | exited n => exact hkeep s s.data_log st2

/-- Observation of the state after `andThen`: when both the first step and
the continuation preserve an observation `g`, the whole sequence does. -/
theorem andThen_keeps {α β : Type} (r : EvalResult Unit) (k : CState → EvalResult α)
    (g : CState → β) (hk : ∀ t, g (finalState (k t)) = g t) :
    g (finalState (andThen r k)) = g (finalState r) := by
  cases r with
  | ret v s1 => exact hk s1
  | escape c s1 => rfl
  | exited n s1 => rfl
  | fatal n s1 => rfl

/-- `finalState` distributes over an `if` on the result. -/
theorem finalState_ite {α : Type} (c : Prop) [Decidable c] (a b : EvalResult α) :
    finalState (if c then a else b) = if c then finalState a else finalState b := by
  split <;> rfl

/-- `finalState` of a normal return. -/
theorem finalState_ret {α : Type} (v : α) (s : CState) :
    finalState (EvalResult.ret v s) = s := rfl

/-- `finalState` of an escape. -/
theorem finalState_escape {α : Type} (c : CatchCode) (s : CState) :
    finalState (EvalResult.escape c s : EvalResult α) = s := rfl

/-- `finalState` of a process exit. -/
theorem finalState_exited {α : Type} (n : Int) (s : CState) :
    finalState (EvalResult.exited n s : EvalResult α) = s := rfl

/-- `finalState` of death by an uncaught signal. -/
theorem finalState_fatal {α : Type} (n : Int) (s : CState) :
    finalState (EvalResult.fatal n s : EvalResult α) = s := rfl

/-- Per-call increment of the `sleep` invocation counter, for every
configured action and every outcome. -/
theorem sleep_status_inc (seconds realRet : Int) (s : CState) :
    (finalState (_eval_sleep seconds realRet s)).sleep.status = s.sleep.status + 1 := by
  cases hA : s.sleep.action <;> simp only [_eval_sleep, hA] <;> try rfl
  case LOG =>
    refine (andThen_keeps _ _ (fun t => t.sleep.status) ?_).trans
      ((datalog_keeps (fun t => t.sleep.status) (fun t d st => rfl) _ _).trans rfl)
    intro t
    rfl

set_option maxHeartbeats 2000000 in
/-- Per-call increment of the `wait` invocation counter. -/
theorem wait_status_inc (p : Ptr) (realRet : Int) (s : CState) :
    (finalState (_eval_wait p realRet s)).wait.status = s.wait.status + 1 := by
  cases hA : s.wait.action
  case LOG =>
    cases p <;>
      simp only [_eval_wait, hA, eval_checkptr, addErr, finalState_ite, finalState_ret, finalState_escape, finalState_exited] <;>
      (refine (andThen_keeps _ _ (fun t => t.wait.status) ?_).trans
        ((datalog_keeps (fun t => t.wait.status) (fun t d st => rfl) _ _).trans rfl) <;>
       intro t <;> (repeat' split) <;> rfl)
  all_goals
    cases p <;>
      simp only [_eval_wait, hA, eval_checkptr, addErr, finalState_ite, finalState_ret, finalState_escape, finalState_exited] <;>
      (repeat' split) <;> rfl

set_option maxHeartbeats 2000000 in
/-- Per-call increment of the `kill` invocation counter. -/
theorem kill_status_inc (mypid ppid pid sig realRet : Int) (s : CState) :
    (finalState (_eval_kill mypid ppid pid sig realRet s)).kill.status
      = s.kill.status + 1 := by
  cases hA : s.kill.action
  case LOG =>
    simp only [_eval_kill, hA, addErr, finalState_ite, finalState_ret, finalState_escape, finalState_exited]
    refine (andThen_keeps _ _ (fun t => t.kill.status) ?_).trans
      ((datalog_keeps (fun t => t.kill.status) (fun t d st => rfl) _ _).trans rfl)
    intro t
    rfl
  all_goals
    simp only [_eval_kill, hA, addErr, finalState_ite, finalState_ret, finalState_escape, finalState_exited] <;> (repeat' split) <;> rfl

set_option maxHeartbeats 2000000 in
/-- Per-call increment of the `signal` invocation counter. -/
theorem signal_status_inc (signum handler realRet : Int) (s : CState) :
    (finalState (_eval_signal signum handler realRet s)).signal.status
      = s.signal.status + 1 := by
  cases hA : s.signal.action
  case LOG =>
    simp only [_eval_signal, hA, addErr, finalState_ite, finalState_ret, finalState_escape, finalState_exited]
    split
    · (repeat' split) <;> rfl
    · refine (andThen_keeps _ _ (fun t => t.signal.status) ?_).trans
        ((datalog_keeps (fun t => t.signal.status) (fun t d st => rfl) _ _).trans ?_)
      · intro t
        rfl
      · (repeat' split) <;> rfl
  all_goals
    simp only [_eval_signal, hA, addErr, finalState_ite, finalState_ret, finalState_escape, finalState_exited] <;> (repeat' split) <;> rfl

/-- First projection of an `if` on a pair. -/
theorem fst_ite {α β : Type} (c : Prop) [Decidable c] (a b : α × β) :
    (if c then a else b).1 = if c then a.1 else b.1 := by split <;> rfl

/-- Second projection of an `if` on a pair. -/
theorem snd_ite {α β : Type} (c : Prop) [Decidable c] (a b : α × β) :
    (if c then a else b).2 = if c then a.2 else b.2 := by split <;> rfl

/-- The `sigact` record of an `if` on states. -/
theorem sigact_ite (c : Prop) [Decidable c] (a b : CState) :
    (if c then a else b).sigact = if c then a.sigact else b.sigact := by
  split <;> rfl

/-- The status counter of an `if` on `sigaction` records. -/
theorem sigactdata_status_ite (c : Prop) [Decidable c] (a b : SigactionData) :
    (if c then a else b).status = if c then a.status else b.status := by
  split <;> rfl

/-- `eval_error` reporting does not touch the `sigaction` record. -/
theorem addErr_sigact (m : String) (t : CState) : (addErr m t).sigact = t.sigact := rfl

/-- The pointer probe does not touch the `sigaction` record. -/
theorem eval_checkptr_sigact (p : Ptr) (t : CState) :
    (eval_checkptr p t).2.sigact = t.sigact := by cases p <;> rfl

/-- The const-pointer probe does not touch the `sigaction` record. -/
theorem eval_checkconstptr_sigact (p : Ptr) (t : CState) :
    (eval_checkconstptr p t).2.sigact = t.sigact := by cases p <;> rfl

/-- The sigaction pointer probes do not touch the `sigaction` record. -/
theorem sigactionChecks_sigact (act oldact : Ptr) (t : CState) :
    (sigactionChecks act oldact t).2.sigact = t.sigact := by
  cases act <;> cases oldact <;> rfl

/-- The reserved-signal message chain does not touch the `sigaction` record. -/
theorem sigactionMsg_sigact (signum : Int) (t : CState) :
    (sigactionMsg signum t).sigact = t.sigact := by
  simp only [sigactionMsg, addErr_sigact, sigact_ite, ite_self]

set_option maxHeartbeats 2000000 in
/-- Per-call increment of the `sigaction` invocation counter. -/
theorem sigaction_status_inc (signum : Int) (act : Ptr) (asi : Bool) (ah : Int)
    (oldact : Ptr) (realRet : Int) (s : CState) :
    (finalState (_eval_sigaction signum act asi ah oldact realRet s)).sigact.status
      = s.sigact.status + 1 := by
  cases hA : s.sigact.action
  case LOG =>
    simp only [_eval_sigaction, hA]
    by_cases hb : signum = SIGPROF ∨ signum = SIGSEGV ∨ signum = SIGBUS ∨
        signum = SIGFPE ∨ signum = SIGILL
    · rw [if_pos hb]
      simp only [finalState_ret, sigactionMsg_sigact, sigactionChecks_sigact]
    · rw [if_neg hb]
      cases act
      · simp only [deliverFault, faultSig, finalState_ite, finalState_escape,
          finalState_fatal, sigact_ite, sigactdata_status_ite, addErr_sigact,
          sigactionMsg_sigact, sigactionChecks_sigact, ite_self]
      · simp only [deliverFault, faultSig, finalState_ite, finalState_escape,
          finalState_fatal, sigact_ite, sigactdata_status_ite, addErr_sigact,
          sigactionMsg_sigact, sigactionChecks_sigact, ite_self]
      · refine (andThen_keeps _ _ (fun t => t.sigact.status) ?_).trans
          ((datalog_keeps (fun t => t.sigact.status) (fun t d st => rfl) _ _).trans ?_)
        · intro t
          rfl
        · simp only [sigactionMsg_sigact, sigactionChecks_sigact]
      · simp only [deliverFault, faultSig, finalState_ite, finalState_escape,
          finalState_fatal, sigact_ite, sigactdata_status_ite, addErr_sigact,
          sigactionMsg_sigact, sigactionChecks_sigact, ite_self]
      · simp only [deliverFault, faultSig, finalState_ite, finalState_escape,
          finalState_fatal, sigact_ite, sigactdata_status_ite, addErr_sigact,
          sigactionMsg_sigact, sigactionChecks_sigact, ite_self]
  all_goals
    simp only [_eval_sigaction, hA] <;>
    simp only [deliverFault, faultSig, finalState_ite, finalState_ret,
      finalState_escape, finalState_exited, finalState_fatal, sigact_ite,
      sigactdata_status_ite, addErr_sigact, sigactionMsg_sigact,
      sigactionChecks_sigact, ite_self]

set_option maxHeartbeats 2000000 in
/-- Per-call increment of the `msgget` invocation counter. -/
theorem msgget_status_inc (key msgflg realRet : Int) (s : CState) :
    (finalState (_eval_msgget key msgflg realRet s)).msgget.status
      = s.msgget.status + 1 := by
  cases hA : s.msgget.action
  case LOG =>
    simp only [_eval_msgget, hA, addErr, finalState_ite, finalState_ret, finalState_escape, finalState_exited]
    refine (andThen_keeps _ _ (fun t => t.msgget.status) ?_).trans
      ((datalog_keeps (fun t => t.msgget.status) (fun t d st => rfl) _ _).trans rfl)
    intro t
    rfl
  all_goals
    simp only [_eval_msgget, hA, addErr, finalState_ite, finalState_ret, finalState_escape, finalState_exited] <;> (repeat' split) <;> rfl

set_option maxHeartbeats 2000000 in
/-- Per-call increment of the `semget` invocation counter. -/
theorem semget_status_inc (key nsems semflg realRet : Int) (s : CState) :
    (finalState (_eval_semget key nsems semflg realRet s)).semget.status
      = s.semget.status + 1 := by
  cases hA : s.semget.action
  case LOG =>
    simp only [_eval_semget, hA, addErr, finalState_ite, finalState_ret, finalState_escape, finalState_exited]
    refine (andThen_keeps _ _ (fun t => t.semget.status) ?_).trans
      ((datalog_keeps (fun t => t.semget.status) (fun t d st => rfl) _ _).trans rfl)
    intro t
    rfl
  all_goals
    simp only [_eval_semget, hA, addErr, finalState_ite, finalState_ret, finalState_escape, finalState_exited] <;> (repeat' split) <;> rfl

set_option maxHeartbeats 2000000 in
/-- Per-call increment of the `shmget` invocation counter. -/
theorem shmget_status_inc (key : Int) (size : Nat) (shmflg realRet : Int) (s : CState) :
    (finalState (_eval_shmget key size shmflg realRet s)).shmget.status
      = s.shmget.status + 1 := by
  cases hA : s.shmget.action
  case LOG =>
    simp only [_eval_shmget, hA, addErr, finalState_ite, finalState_ret, finalState_escape, finalState_exited]
    refine (andThen_keeps _ _ (fun t => t.shmget.status) ?_).trans
      ((datalog_keeps (fun t => t.shmget.status) (fun t d st => rfl) _ _).trans rfl)
    intro t
    rfl
  all_goals
    simp only [_eval_shmget, hA, addErr, finalState_ite, finalState_ret, finalState_escape, finalState_exited] <;> (repeat' split) <;> rfl

set_option maxHeartbeats 2000000 in
/-- Per-call increment of the `msgrcv` invocation counter. -/
theorem msgrcv_status_inc (msqid : Int) (p : Ptr) (msgsz : Nat)
    (msgtyp msgflg realRet : Int) (s : CState) :
    (finalState (_eval_msgrcv msqid p msgsz msgtyp msgflg realRet s)).msgrcv.status
      = s.msgrcv.status + 1 := by
  cases hA : s.msgrcv.action
  case LOG =>
    cases p <;>
      simp only [_eval_msgrcv, hA, eval_checkptr, addErr, finalState_ite, finalState_ret, finalState_escape, finalState_exited] <;>
      (refine (andThen_keeps _ _ (fun t => t.msgrcv.status) ?_).trans
        ((datalog_keeps (fun t => t.msgrcv.status) (fun t d st => rfl) _ _).trans rfl) <;>
       intro t <;> rfl)
  all_goals
    cases p <;>
      simp only [_eval_msgrcv, hA, eval_checkptr, addErr, finalState_ite, finalState_ret, finalState_escape, finalState_exited] <;>
      (repeat' split) <;> rfl

set_option maxHeartbeats 2000000 in
/-- Per-call increment of the `execl` invocation counter. -/
theorem execl_status_inc (pathPtr : Ptr) (pathVal : String) (realRet : Int)
    (s : CState) :
    (finalState (_eval_execl pathPtr pathVal realRet s)).execl.status
      = s.execl.status + 1 := by
  cases hA : s.execl.action
  case LOG =>
    cases pathPtr <;>
      simp only [_eval_execl, hA, eval_checkconstptr, addErr, finalState_ite, finalState_ret, finalState_escape, finalState_exited] <;>
      (refine (andThen_keeps _ _ (fun t => t.execl.status) ?_).trans
        ((datalog_keeps (fun t => t.execl.status) (fun t d st => rfl) _ _).trans rfl) <;>
       intro t <;> rfl)
  all_goals
    cases pathPtr <;>
      simp only [_eval_execl, hA, eval_checkconstptr, addErr, finalState_ite, finalState_ret, finalState_escape, finalState_exited] <;>
      (repeat' split) <;> rfl

set_option maxHeartbeats 2000000 in
/-- Per-call increment of the `atoi` invocation counter. -/
theorem atoi_status_inc (nptrPtr : Ptr) (nptrVal : String) (realRet : Int)
    (s : CState) :
    (finalState (_eval_atoi nptrPtr nptrVal realRet s)).atoi.status
      = s.atoi.status + 1 := by
  cases hA : s.atoi.action
  case LOG =>
    cases nptrPtr
    case valid a =>
      simp only [_eval_atoi, hA]
      split
      · refine (andThen_keeps _ _ (fun t => t.atoi.status) ?_).trans
          ((datalog_keeps (fun t => t.atoi.status) (fun t d st => rfl) _ _).trans rfl)
        intro t
        rfl
      · rename_i h
        exact absurd rfl h
    all_goals
      simp only [_eval_atoi, hA, deliverFault, faultSig, finalState_ite,
        finalState_ret, finalState_escape, finalState_exited,
        finalState_fatal] <;>
      (repeat' split) <;>
      first
      | rfl
      | (rename_i h; exact absurd h (by simp [eval_checkconstptr]))
      | (rename_i h; exact absurd rfl h)
  all_goals
    cases nptrPtr <;>
      simp only [_eval_atoi, hA, deliverFault, faultSig, finalState_ite,
        finalState_ret, finalState_escape, finalState_exited,
        finalState_fatal] <;>
      (repeat' split) <;>
      first
      | rfl
      | (rename_i h; exact absurd h (by simp [eval_checkconstptr]))
      | (rename_i h; exact absurd rfl h)

/-- Claim C8: for every modelled intercepted operation and every configured
action (DEFAULT, ERROR, SUCCESS, LOG, BLOCK, RETRY, CREATE, INJECT, PROTECT —
the state `s` is arbitrary, so every action value is covered), a single call
increments that operation's invocation counter (the `.status` field) by
exactly one, whether the call returns, escapes via `siglongjmp`, or exits;
the increment is performed before the dispatch on the configured action. -/
theorem invocation_counter_increment (s : CState) :
    (∀ seconds realRet : Int,
      (finalState (_eval_sleep seconds realRet s)).sleep.status
        = s.sleep.status + 1) ∧
    (∀ (p : Ptr) (realRet : Int),
      (finalState (_eval_wait p realRet s)).wait.status = s.wait.status + 1) ∧
    (∀ mypid ppid pid sig realRet : Int,
      (finalState (_eval_kill mypid ppid pid sig realRet s)).kill.status
        = s.kill.status + 1) ∧
    (∀ signum handler realRet : Int,
      (finalState (_eval_signal signum handler realRet s)).signal.status
        = s.signal.status + 1) ∧
    (∀ (signum : Int) (act : Ptr) (asi : Bool) (ah : Int) (oldact : Ptr)
        (realRet : Int),
      (finalState (_eval_sigaction signum act asi ah oldact realRet s)).sigact.status
        = s.sigact.status + 1) ∧
    (∀ key msgflg realRet : Int,
      (finalState (_eval_msgget key msgflg realRet s)).msgget.status
        = s.msgget.status + 1) ∧
    (∀ key nsems semflg realRet : Int,
      (finalState (_eval_semget key nsems semflg realRet s)).semget.status
        = s.semget.status + 1) ∧
    (∀ (key : Int) (size : Nat) (shmflg realRet : Int),
      (finalState (_eval_shmget key size shmflg realRet s)).shmget.status
        = s.shmget.status + 1) ∧
    (∀ (msqid : Int) (p : Ptr) (msgsz : Nat) (msgtyp msgflg realRet : Int),
      (finalState (_eval_msgrcv msqid p msgsz msgtyp msgflg realRet s)).msgrcv.status
        = s.msgrcv.status + 1) ∧
    (∀ (pathPtr : Ptr) (pathVal : String) (realRet : Int),
      (finalState (_eval_execl pathPtr pathVal realRet s)).execl.status
        = s.execl.status + 1) ∧
    (∀ (nptrPtr : Ptr) (nptrVal : String) (realRet : Int),
      (finalState (_eval_atoi nptrPtr nptrVal realRet s)).atoi.status
        = s.atoi.status + 1) :=
  ⟨fun a b => sleep_status_inc a b s,
   fun a b => wait_status_inc a b s,
   fun a b c d e => kill_status_inc a b c d e s,
   fun a b c => signal_status_inc a b c s,
   fun a b c d e f => sigaction_status_inc a b c d e f s,
   fun a b c => msgget_status_inc a b c s,
   fun a b c d => semget_status_inc a b c d s,
   fun a b c d => shmget_status_inc a b c d s,
   fun a b c d e f => msgrcv_status_inc a b c d e f s,
   fun a b c => execl_status_inc a b c s,
   fun a b c => atoi_status_inc a b c s⟩

/-!  ## Claim C9 -/

/-- The `realCalls` trace of an `if` on states. -/
theorem realCalls_ite (c : Prop) [Decidable c] (a b : CState) :
    (if c then a else b).realCalls = if c then a.realCalls else b.realCalls := by
  split <;> rfl

/-- `eval_error` reporting does not touch the real-call trace. -/
theorem addErr_realCalls (m : String) (t : CState) :
    (addErr m t).realCalls = t.realCalls := rfl

/-- The pointer probe performs no real OS call. -/
theorem eval_checkptr_realCalls (p : Ptr) (t : CState) :
    (eval_checkptr p t).2.realCalls = t.realCalls := by cases p <;> rfl

/-- The const-pointer probe performs no real OS call. -/
theorem eval_checkconstptr_realCalls (p : Ptr) (t : CState) :
    (eval_checkconstptr p t).2.realCalls = t.realCalls := by cases p <;> rfl

/-- The sigaction pointer probes perform no real OS call. -/
theorem sigactionChecks_realCalls (act oldact : Ptr) (t : CState) :
    (sigactionChecks act oldact t).2.realCalls = t.realCalls := by
  cases act <;> cases oldact <;> rfl

/-- The reserved-signal message chain performs no real OS call. -/
theorem sigactionMsg_realCalls (signum : Int) (t : CState) :
    (sigactionMsg signum t).realCalls = t.realCalls := by
  simp only [sigactionMsg, addErr_realCalls, realCalls_ite, ite_self]

set_option maxHeartbeats 2000000 in
/-- Claim C9: a `signal` or `sigaction` call with a reserved signal number
(SIGPROF, SIGSEGV, SIGBUS, SIGFPE or SIGILL) is rejected with `SIG_ERR`
respectively −1 and `errno = EINVAL` before the configured action is
consulted: whatever action is configured in the (arbitrary) state `s`, the
call returns the error value, never escapes (so BLOCK does not fire), and
never performs the real `signal`/`sigaction` call. -/
theorem reserved_signal_rejected (s : CState) (signum handler realRet : Int)
    (hres : signum = SIGPROF ∨ signum = SIGSEGV ∨ signum = SIGBUS ∨
      signum = SIGFPE ∨ signum = SIGILL) :
    (retVal (_eval_signal signum handler realRet s) = some SIG_ERR ∧
     (finalState (_eval_signal signum handler realRet s)).errno = EINVAL ∧
     (finalState (_eval_signal signum handler realRet s)).realCalls = s.realCalls ∧
     escaped (_eval_signal signum handler realRet s) = none) ∧
    (∀ (act : Ptr) (asi : Bool) (ah : Int) (oldact : Ptr) (rr : Int),
      retVal (_eval_sigaction signum act asi ah oldact rr s) = some (-1) ∧
      (finalState (_eval_sigaction signum act asi ah oldact rr s)).errno = EINVAL ∧
      (finalState (_eval_sigaction signum act asi ah oldact rr s)).realCalls
        = s.realCalls ∧
      escaped (_eval_sigaction signum act asi ah oldact rr s) = none) := by
  refine ⟨⟨?_, ?_, ?_, ?_⟩, fun act asi ah oldact rr => ⟨?_, ?_, ?_, ?_⟩⟩ <;>
    simp only [_eval_signal, _eval_sigaction, hres, ite_true] <;>
    simp only [retVal, escaped, finalState, fst_ite, snd_ite, realCalls_ite,
      addErr_realCalls, eval_checkptr_realCalls, eval_checkconstptr_realCalls,
      sigactionChecks_realCalls, sigactionMsg_realCalls, ite_self]

/-- Witness for C9: a SIGPROF `signal` call and a SIGSEGV `sigaction` call
from the reset state (action DEFAULT) are both rejected with EINVAL. -/
theorem reserved_signal_rejected_witness :
    retVal (_eval_signal SIGPROF 5 0 initState) = some SIG_ERR ∧
    (finalState (_eval_signal SIGPROF 5 0 initState)).errno = EINVAL ∧
    retVal (_eval_sigaction SIGSEGV .null false 0 .null 0 initState) = some (-1) ∧
    (finalState (_eval_sigaction SIGSEGV .null false 0 .null 0 initState)).errno
      = EINVAL :=
  ⟨(reserved_signal_rejected initState SIGPROF 5 0 (Or.inl rfl)).1.1,
   (reserved_signal_rejected initState SIGPROF 5 0 (Or.inl rfl)).1.2.1,
   ((reserved_signal_rejected initState SIGSEGV 0 0
      (Or.inr (Or.inl rfl))).2 .null false 0 .null 0).1,
   ((reserved_signal_rejected initState SIGSEGV 0 0
      (Or.inr (Or.inl rfl))).2 .null false 0 .null 0).2.1⟩

/-!  ## Claim C10 -/

/-- `newline` never decreases the error counter. -/
theorem newline_error_mono (cap : Nat) (c : Bool) (log : Log) (st : EvalStats) :
    st.error ≤ ((newline cap c log st).2).error := by
  unfold newline
  split
  · exact le_refl _
  · split <;> simp [eval_error] <;> omega

/-- `datalog` never decreases the error counter. -/
theorem datalog_error_mono (line : String) (s : CState) :
    s.stats.error ≤ (finalState (datalog line s)).stats.error := by
  unfold datalog
  cases hnl : newline LOGSIZE s.catchFlag s.data_log s.stats with
  | mk out st2 =>
    have h := newline_error_mono LOGSIZE s.catchFlag s.data_log s.stats
    rw [hnl] at h
    cases out <;> simpa [finalState] using h

/-- `andThen` never decreases the error counter when the continuation does
not. -/
theorem andThen_error_mono {α : Type} (r : EvalResult Unit)
    (k : CState → EvalResult α)
    (hk : ∀ t, t.stats.error ≤ (finalState (k t)).stats.error) :
    (finalState r).stats.error ≤ (finalState (andThen r k)).stats.error := by
  cases r with
  | ret v s1 => exact hk s1
  | escape c s1 => exact le_refl _
  | exited n s1 => exact le_refl _
  | fatal n s1 => exact le_refl _

/-- Counterexample to claim C10 as stated: with an invalid string pointer
the intercept never returns at all, let alone −1, even under the DEFAULT
action.  The inverted pointer check (eval.c line 2966) sends an invalid
`nptr` into the `else` branch, whose `strncpy(_eval_atoi_data.nptr, nptr, 32)`
(eval.c line 2971) reads through the invalid pointer: from the reset state
(action DEFAULT, capture armed) the call on the `(void *) -1` sentinel
escapes with the SignalCaught outcome, and with capture disarmed the call on
NULL dies on SIGSEGV. -/
theorem atoi_invalid_ptr_never_returns :
    retVal (_eval_atoi .neg1 "" 0 initState) = none ∧
    escaped (_eval_atoi .neg1 "" 0 initState) = some .signal ∧
    retVal (_eval_atoi .null "" 0 { initState with catchFlag := false }) = none ∧
    fatalSig (_eval_atoi .null "" 0 { initState with catchFlag := false })
      = some SIGSEGV := by
  decide

/-- Claim C10, corrected: with a *valid* string pointer every `_eval_atoi`
call reports at least one error (the inverted pointer check of eval.c line
2966 treats a valid pointer as invalid), and under the DEFAULT action the
real `atoi` is never invoked and the intercept returns −1.  With an invalid
pointer (NULL, `(void *) -1`, or a faulting address) the call enters the
branch whose `strncpy` (eval.c line 2971) reads through the invalid pointer,
so the call never returns: it escapes with the SignalCaught outcome when
capture is armed and dies on the fault signal otherwise.  On no path does
the intercept perform a real OS/libc call, and on every completed path the
error counter has strictly increased. -/
theorem atoi_refined (s : CState) (nptrPtr : Ptr) (nptrVal : String)
    (realRet : Int) :
    (s.stats.error + 1 ≤
      (finalState (_eval_atoi nptrPtr nptrVal realRet s)).stats.error) ∧
    ((finalState (_eval_atoi nptrPtr nptrVal realRet s)).realCalls
      = s.realCalls) ∧
    (∀ a : Nat, nptrPtr = Ptr.valid a → s.atoi.action = .DEFAULT →
      retVal (_eval_atoi nptrPtr nptrVal realRet s) = some (-1)) ∧
    (invalidPtr nptrPtr = true →
      retVal (_eval_atoi nptrPtr nptrVal realRet s) = none ∧
      (s.catchFlag = true →
        escaped (_eval_atoi nptrPtr nptrVal realRet s) = some .signal) ∧
      (s.catchFlag = false →
        fatalSig (_eval_atoi nptrPtr nptrVal realRet s)
          = some (faultSig nptrPtr))) := by
  refine ⟨?_, ?_, ?_, ?_⟩
  · cases hA : s.atoi.action
    case LOG =>
      cases nptrPtr
      case valid a =>
        simp only [_eval_atoi, hA]
        split
        · refine le_trans (le_trans ?_ (datalog_error_mono _ _))
            (andThen_error_mono _ _ ?_)
          · simp [addErr, eval_error, eval_checkconstptr]
          · intro t
            exact le_refl _
        · rename_i h
          exact absurd rfl h
      all_goals
        simp [_eval_atoi, hA, addErr, eval_error, eval_checkconstptr,
          finalState_deliverFault, finalState_ret, finalState_escape,
          finalState_exited] <;>
        split <;> (try dsimp only) <;> omega
    all_goals
      cases nptrPtr <;>
        simp [_eval_atoi, hA, addErr, eval_error, eval_checkconstptr,
          finalState_deliverFault, finalState_ret, finalState_escape,
          finalState_exited] <;>
        (repeat' split) <;> (try dsimp only) <;> omega
  · cases hA : s.atoi.action
    case LOG =>
      cases nptrPtr
      case valid a =>
        simp only [_eval_atoi, hA]
        split
        · refine (andThen_keeps _ _ (fun t => t.realCalls) ?_).trans
            ((datalog_keeps (fun t => t.realCalls) (fun t d st => rfl) _ _).trans rfl)
          intro t
          rfl
        · rename_i h
          exact absurd rfl h
      all_goals
        simp [_eval_atoi, hA, addErr, eval_checkconstptr,
          finalState_deliverFault, finalState_ret, finalState_escape,
          finalState_exited] <;>
        split <;> rfl
    all_goals
      cases nptrPtr <;>
        simp [_eval_atoi, hA, addErr, eval_checkconstptr,
          finalState_deliverFault, finalState_ret, finalState_escape,
          finalState_exited] <;>
        (repeat' split) <;> rfl
  · intro a hp hD
    subst hp
    simp [_eval_atoi, hD, eval_checkconstptr, retVal, addErr]
  · intro hinv
    cases nptrPtr
    case valid a => exact absurd hinv (by simp [invalidPtr])
    all_goals
      exact ⟨by simp [_eval_atoi, eval_checkconstptr, retVal_deliverFault],
        fun hc => by
          simp [_eval_atoi, eval_checkconstptr, addErr,
            escaped_deliverFault_armed, hc],
        fun hc => by
          simp [_eval_atoi, eval_checkconstptr, addErr, faultSig,
            fatalSig_deliverFault_disarmed, hc]⟩

/-- Witness for C10: from the reset state (action DEFAULT, capture armed),
`_eval_atoi` on a valid pointer to "42" returns −1 (not 42), and on the
`(void *) -1` sentinel it returns nothing and escapes with the SignalCaught
outcome. -/
theorem atoi_refined_witness :
    retVal (_eval_atoi (.valid 8) "42" 42 initState) = some (-1) ∧
    retVal (_eval_atoi .neg1 "42" 42 initState) = none ∧
    escaped (_eval_atoi .neg1 "42" 42 initState) = some .signal :=
  ⟨(atoi_refined initState (.valid 8) "42" 42).2.2.1 8 rfl rfl,
   ((atoi_refined initState .neg1 "42" 42).2.2.2 (by decide)).1,
   ((atoi_refined initState .neg1 "42" 42).2.2.2 (by decide)).2.1 rfl⟩

end EvalC
